import Mathlib

/- Shallow embedding of the objdiff build/compare core:
   src/jobs/build.rs (run_make, run_build) and src/app.rs
   (post_rendering scheduler tick, create_watcher callback).
   External collaborators (subprocess execution, ELF parsing, the diff
   engine, the cancellation channel) are oracle parameters gathered in
   an environment record; the control flow is translated directly from
   the Rust source. -/

namespace Objdiff

/-- A Path is modelled as a list of components; `PathBuf::push` appends a
component and `Path::strip_prefix` removes a leading component list. -/
abbrev Path := List String

/-- Translation of `Path::strip_prefix`: the suffix when the prefix
matches, otherwise an error (modelled as `none`). -/
def strip_prefix (p pre : Path) : Option Path :=
  if pre.isPrefixOf p then some (p.drop pre.length) else none

/-- `BuildStatus` from src/jobs/build.rs lines 18-21. -/
structure BuildStatus where
  success : Bool
  log : String
deriving Repr, DecidableEq

/-- The in-memory object representation produced by the external parser
(`ObjInfo`, out of core scope); the diff engine annotates it in place,
modelled by the `annotated` field. -/
structure ObjInfo where
  name : String
  annotated : Bool
deriving Repr, DecidableEq

/-- `BuildResult` from src/jobs/build.rs lines 22-27. -/
structure BuildResult where
  first_status : BuildStatus
  second_status : BuildStatus
  first_obj : Option ObjInfo
  second_obj : Option ObjInfo
deriving Repr, DecidableEq

/-- Outcome of `Command::new("make").current_dir(cwd).arg(arg).output()`:
either the launch failed, or we have an exit code (`none` when the
process was terminated by a signal) and the decode results of the two
captured streams (`none` = invalid UTF-8). -/
inductive CmdResult where
  | failed : CmdResult
  | launched (code : Option Int) (stdout stderr : Option String) : CmdResult
deriving Repr, DecidableEq

/-- Translation of `run_make` (src/jobs/build.rs lines 29-46): the inner
closure propagates launch and decode failures as errors carrying their
context message, and the outer match converts any such error into a
failed `BuildStatus` whose log is the error message. `exec` is the
subprocess oracle. -/
def run_make (exec : Path → Path → CmdResult) (cwd arg : Path) : BuildStatus :=
  match exec cwd arg with
  | .failed => ⟨false, "Failed to execute build"⟩
  | .launched code stdout stderr =>
    match stdout with
    | none => ⟨false, "Failed to process stdout"⟩
    | some out =>
      match stderr with
      | none => ⟨false, "Failed to process stderr"⟩
      | some err => ⟨code.getD (-1) == 0, out ++ "\n" ++ err⟩

/-- `AppConfig` from src/app.rs lines 63-74. -/
structure AppConfig where
  project_dir : Option Path
  build_asm_dir : Option Path
  build_src_dir : Option Path
  build_obj : Option String
  left_obj : Option Path
  right_obj : Option Path
  project_dir_change : Bool
deriving Repr, DecidableEq

/-- One write performed by `update_status`: message, step, total. -/
structure StatusWrite where
  message : String
  step : Nat
  total : Nat
deriving Repr, DecidableEq

/-- Modelled from the spec (the `update_status` function lives in the jobs
module that is not under src/): it atomically overwrites the Status's
message, step and total, then performs a non-blocking check of the
cancellation channel and reports whether a cancellation token has been
received. The write happens before the check. -/
def update_status (ws : List StatusWrite) (msg : String) (step total : Nat)
    (cancelled : Bool) : List StatusWrite × Bool :=
  (ws ++ [⟨msg, step, total⟩], cancelled)

/-- Modelled from the spec: the external diff engine mutates both
arguments in place with match/percentage annotations, or fails with a
diff error (`diff_objs` is an external collaborator, out of core scope).
`fails` is the oracle for the failure case. -/
def diff_objs (fails : Bool) (o1 o2 : ObjInfo) : Except String (ObjInfo × ObjInfo) :=
  if fails then .error "Diff failed"
  else .ok ({ o1 with annotated := true }, { o2 with annotated := true })

/-- Oracle environment for one pipeline run: the subprocess results, the
external parser, the diff engine failure switch, whether the config lock
is poisoned, and which `update_status` checkpoints (keyed by their step
number) observe a cancellation token. -/
structure Env where
  exec : Path → Path → CmdResult
  read : Path → Except String ObjInfo
  diff_fails : Bool
  lock_poisoned : Bool
  cancelAt : Nat → Bool

/-- External-call events of one pipeline run, in order: a build-tool
invocation (`true` = asm side), a parser invocation, a diff invocation. -/
inductive Ev where
  | make (asmSide : Bool) : Ev
  | load (asmSide : Bool) : Ev
  | diff : Ev
deriving Repr, DecidableEq

/-- The terminal outcome of `run_build`: cancelled (a checkpoint observed
a token) or a pipeline-fatal error with its message. -/
inductive BuildError where
  | cancelled : BuildError
  | fatal (msg : String) : BuildError
deriving Repr, DecidableEq

/-- Result of one run: the returned value, the trace of external calls,
and the sequence of status writes. -/
structure RunOutcome where
  result : Except BuildError BuildResult
  trace : List Ev
  writes : List StatusWrite
deriving Repr

/-- One load stage of the pipeline (src/jobs/build.rs lines 80-92): when
the side's build succeeded, report the status, check cancellation, invoke
the external parser and propagate its failure; when the build failed the
side is `none` with no parser call and no error. -/
def load_stage (env : Env) (success : Bool) (p : Path) (asmSide : Bool)
    (msg : String) (step : Nat) (tr : List Ev) (ws : List StatusWrite) :
    Except BuildError (Option ObjInfo) × List Ev × List StatusWrite :=
  if success then
    let (ws, c) := update_status ws msg step 5 (env.cancelAt step)
    if c then (.error .cancelled, tr, ws)
    else
      match env.read p with
      | .error e => (.error (.fatal e), tr ++ [Ev.load asmSide], ws)
      | .ok o => (.ok (some o), tr ++ [Ev.load asmSide], ws)
  else (.ok none, tr, ws)

/-- Final stages of the pipeline (src/jobs/build.rs lines 94-100):
when both sides produced an object, report stage 4, run the diff engine
on both (mutation in place modelled by using the returned pair) and
propagate its failure; otherwise skip the diff without error; then
report the terminal Complete status. -/
def finish_stage (env : Env) (fs ss : BuildStatus) (fo so : Option ObjInfo)
    (tr : List Ev) (ws : List StatusWrite) : RunOutcome :=
  match fo, so with
  | some o1, some o2 =>
    let (w4, c4) := update_status ws "Performing diff" 4 5 (env.cancelAt 4)
    if c4 then ⟨.error .cancelled, tr, w4⟩
    else
      match diff_objs env.diff_fails o1 o2 with
      | .error e => ⟨.error (.fatal e), tr ++ [Ev.diff], w4⟩
      | .ok (o1d, o2d) =>
        let (w5, c5) := update_status w4 "Complete" 5 5 (env.cancelAt 5)
        if c5 then ⟨.error .cancelled, tr ++ [Ev.diff], w5⟩
        else ⟨.ok ⟨fs, ss, some o1d, some o2d⟩, tr ++ [Ev.diff], w5⟩
  | fo, so =>
    let (w5, c5) := update_status ws "Complete" 5 5 (env.cancelAt 5)
    if c5 then ⟨.error .cancelled, tr, w5⟩
    else ⟨.ok ⟨fs, ss, fo, so⟩, tr, w5⟩

/-- Load stages 3 and 4 followed by the final stages
(src/jobs/build.rs lines 80-100): each side is loaded only when its
build succeeded, and a load failure or cancellation unwinds
immediately. -/
def loads_stage (env : Env) (fs ss : BuildStatus) (asm_path src_path : Path)
    (obj_path : String) (tr : List Ev) (ws : List StatusWrite) : RunOutcome :=
  match load_stage env fs.success asm_path true ("Loading asm " ++ obj_path) 2 tr ws with
  | (.error e, trE, wsE) => ⟨.error e, trE, wsE⟩
  | (.ok fo, tr2, ws2) =>
    match load_stage env ss.success src_path false ("Loading src " ++ obj_path) 3 tr2 ws2 with
    | (.error e, trE, wsE) => ⟨.error e, trE, wsE⟩
    | (.ok so, tr3, ws3) => finish_stage env fs ss fo so tr3 ws3

/-- Translation of `run_build` (src/jobs/build.rs lines 48-101). The
shared configuration is a time-indexed value `cfgF`; the code reads and
clones it exactly once at instant 0 (the `config.read()?.clone()` on
line 54) before any other work. -/
def run_build (env : Env) (obj_path : String) (cfgF : Nat → AppConfig) : RunOutcome :=
  if env.lock_poisoned then ⟨.error (.fatal "Failed to lock app config"), [], []⟩
  else
    let config := cfgF 0
    match config.project_dir with
    | none => ⟨.error (.fatal "Missing project dir"), [], []⟩
    | some project_dir =>
      match config.build_asm_dir with
      | none => ⟨.error (.fatal "Missing build asm dir"), [], []⟩
      | some asm_dir =>
        let asm_path := asm_dir ++ [obj_path]
        match config.build_src_dir with
        | none => ⟨.error (.fatal "Missing build src dir"), [], []⟩
        | some src_dir =>
          let src_path := src_dir ++ [obj_path]
          match strip_prefix asm_path project_dir with
          | none => ⟨.error (.fatal "Failed to create relative asm obj path"), [], []⟩
          | some asm_path_rel =>
            match strip_prefix src_path project_dir with
            | none => ⟨.error (.fatal "Failed to create relative src obj path"), [], []⟩
            | some src_path_rel =>
              let (w0, c0) := update_status [] ("Building asm " ++ obj_path) 0 5 (env.cancelAt 0)
              if c0 then ⟨.error .cancelled, [], w0⟩
              else
                let first_status := run_make env.exec project_dir asm_path_rel
                let t1 := [Ev.make true]
                let (w1, c1) := update_status w0 ("Building src " ++ obj_path) 1 5 (env.cancelAt 1)
                if c1 then ⟨.error .cancelled, t1, w1⟩
                else
                  let second_status := run_make env.exec project_dir src_path_rel
                  let t2 := t1 ++ [Ev.make false]
                  loads_stage env first_status second_status asm_path src_path obj_path t2 w1

/-- Modelled from the spec (worker wrapper in the missing jobs module):
a pipeline-fatal error is attached to the job's Status as its error;
cancellation is not an error, the job terminates silently. -/
def status_error (o : RunOutcome) : Option String :=
  match o.result with
  | .error (.fatal m) => some m
  | _ => none

/-- The `Job` type tag (jobs module; src/app.rs compares `job_type` with
`Job::Build`). -/
inductive JobTy where
  | Build : JobTy
  | BinDiff : JobTy
deriving Repr, DecidableEq

/-- One entry of `view_state.jobs` as the scheduler observes it:
`has_handle` models `handle.is_some()`; `obj` is the object path the job
was queued with (the argument passed to `queue_build`). -/
structure JobEntry where
  id : Nat
  job_type : JobTy
  has_handle : Bool
  should_remove : Bool
  obj : String
deriving Repr, DecidableEq

/-- The state the `post_rendering` scheduler block reads and writes: the
job list, the shared `modified` flag, the shared configuration and
whether a watcher is installed. -/
structure SchedState where
  jobs : List JobEntry
  modified : Bool
  config : AppConfig
  has_watcher : Bool
deriving Repr, DecidableEq

/-- Primitive actions of one scheduler tick, recorded in program order. -/
inductive Act where
  | drop_watcher : Act
  | create_watcher_ok : Act
  | create_watcher_err : Act
  | set_modified (b : Bool) : Act
  | enqueue (obj : String) : Act
deriving Repr, DecidableEq

/-- First half of the scheduler portion of `post_rendering`
(src/app.rs lines 270-280): when `project_dir_change` is set, tear down
the watcher, install a new one when a project dir is set (`watcher_ok`
is the oracle for `create_watcher` succeeding), clear
`project_dir_change` and store `modified := true`. -/
def watcher_block (watcher_ok : Bool) (s : SchedState) : SchedState × List Act :=
  if s.config.project_dir_change then
    let s' := { s with has_watcher := false }
    let a' := [Act.drop_watcher]
    match s'.config.project_dir with
    | some _ =>
      let (s2, a2) :=
        if watcher_ok then ({ s' with has_watcher := true }, a' ++ [Act.create_watcher_ok])
        else (s', a' ++ [Act.create_watcher_err])
      ({ s2 with config := { s2.config with project_dir_change := false },
                 modified := true },
       a2 ++ [Act.set_modified true])
    | none => (s', a')
  else (s, [])

/-- Second half of the scheduler portion of `post_rendering`
(src/app.rs lines 282-296): when a build object path is configured and
the modified flag is set, push a Build job unless one with a live
handle is already in flight, then store `modified := false`
unconditionally. `next_id` is the id the jobs module would assign to
the new job; `a1` is the action trace accumulated so far. -/
def build_block (next_id : Nat) (s1 : SchedState) (a1 : List Act) : SchedState × List Act :=
  match s1.config.build_obj with
  | some build_obj =>
    if s1.modified then
      let (s2, a2) :=
        if s1.jobs.any (fun j => j.job_type == JobTy.Build && j.has_handle) then (s1, [])
        else ({ s1 with jobs := s1.jobs ++ [⟨next_id, JobTy.Build, true, false, build_obj⟩] },
              [Act.enqueue build_obj])
      ({ s2 with modified := false }, a1 ++ a2 ++ [Act.set_modified false])
    else (s1, a1)
  | none => (s1, a1)

/-- Translation of the scheduler portion of `post_rendering`
(src/app.rs lines 269-297): under the config write lock (`write_ok`),
run the `project_dir_change` block and then the build-obj block.
Returns the new state and the trace of primitive actions in program
order. -/
def scheduler_tick (write_ok watcher_ok : Bool) (next_id : Nat)
    (s : SchedState) : SchedState × List Act :=
  if !write_ok then (s, [])
  else
    let (s1, a1) := watcher_block watcher_ok s
    build_block next_id s1 a1

/-- The value of the modified flag at the moment the build-obj block of
the tick tests it: the `project_dir_change` block, when it runs and a
project dir is set, has already stored `true`. -/
def modified_mid (s : SchedState) : Bool :=
  if s.config.project_dir_change && s.config.project_dir.isSome then true
  else s.modified

/-- Event kinds of the notify facility; `Modify(..)` collapses to one
constructor since the callback only pattern-matches the outer kind. -/
inductive EventKind where
  | Any : EventKind
  | Access : EventKind
  | Create : EventKind
  | Modify : EventKind
  | Remove : EventKind
  | Other : EventKind
deriving Repr, DecidableEq

/-- Translation of `matches!(event.kind, notify::EventKind::Modify(..))`. -/
def is_modify : EventKind → Bool
  | .Modify => true
  | _ => false

/-- One delivered filesystem event: its kind and its affected paths
(each path a plain string). -/
structure FsEvent where
  kind : EventKind
  paths : List String
deriving Repr, DecidableEq

/-- The final path component (the characters after the last separator),
as `Path::file_name` views it for extension extraction. -/
def file_name (p : String) : List Char :=
  (p.data.reverse.takeWhile (fun c => c ≠ '/')).reverse

/-- Translation of `Path::extension` on the file name: `none` when there
is no dot, or when the name begins with a dot and has no other dot;
otherwise the portion after the final dot. -/
def extension (p : String) : Option String :=
  let cs := file_name p
  let body := if cs.head? = some '.' then cs.drop 1 else cs
  if body.contains '.' then some (String.mk ((cs.reverse.takeWhile (fun c => c ≠ '.')).reverse))
  else none

/-- The fixed extension allow-list of `create_watcher`
(src/app.rs lines 309-315). -/
def watch_extensions : List (Option String) :=
  [some "c", some "cp", some "cpp", some "h", some "hpp"]

/-- Translation of the `create_watcher` callback closure
(src/app.rs lines 306-322): on a delivered event of Modify kind with at
least one affected path whose extension is in the allow-list, store
`true` into the shared modified flag; every other delivery (including a
watch error) leaves the flag unchanged. Returns the new flag value. -/
def watcher_callback (modified : Bool) (res : Except Unit FsEvent) : Bool :=
  match res with
  | .error _ => modified
  | .ok event =>
    if is_modify event.kind then
      if event.paths.any (fun p => watch_extensions.contains (extension p)) then true
      else modified
    else modified

/-- Concrete configuration for witnesses: project root is the path root,
the two build roots are `asm` and `src`, target object `foo.o`. -/
def cfg0 : AppConfig where
  project_dir := some []
  build_asm_dir := some ["asm"]
  build_src_dir := some ["src"]
  build_obj := some "foo.o"
  left_obj := none
  right_obj := none
  project_dir_change := false

/-- Time-indexed shared configuration that never changes. -/
def cfgF0 : Nat → AppConfig := fun _ => cfg0

/-- A second configuration, used to model a concurrent edit. -/
def cfg_edited : AppConfig := { cfg0 with build_obj := some "bar.o" }

/-- Subprocess oracle returning `a` for the asm-side relative path and
`s` otherwise. -/
def exec2 (a s : CmdResult) : Path → Path → CmdResult :=
  fun _ arg => if arg = ["asm", "foo.o"] then a else s

/-- Parser oracle returning a distinct object per side. -/
def read_ok : Path → Except String ObjInfo :=
  fun p => if p = ["asm", "foo.o"] then .ok ⟨"asmobj", false⟩ else .ok ⟨"srcobj", false⟩

/-- Environment in which both builds exit 0, both parses succeed and the
diff succeeds, with no cancellation. -/
def env_ok : Env where
  exec := exec2 (.launched (some 0) (some "aout") (some "aerr"))
               (.launched (some 0) (some "sout") (some "serr"))
  read := read_ok
  diff_fails := false
  lock_poisoned := false
  cancelAt := fun _ => false

/-- Environment in which the asm build exits 1 and the src build exits 0. -/
def env_asmfail : Env :=
  { env_ok with
    exec := exec2 (.launched (some 1) (some "aout") (some "aerr"))
                 (.launched (some 0) (some "sout") (some "serr")) }

/-- Environment in which the asm subprocess output has undecodable
standard output. -/
def env_stdout_bad : Env :=
  { env_ok with
    exec := exec2 (.launched (some 0) none (some "aerr"))
                 (.launched (some 0) (some "sout") (some "serr")) }

/-- Environment in which the asm subprocess is killed by a signal (no
exit code). -/
def env_signal : Env :=
  { env_ok with
    exec := exec2 (.launched none (some "aout") (some "aerr"))
                 (.launched (some 0) (some "sout") (some "serr")) }

/-- Environment in which the asm build succeeds but its artifact fails
to parse. -/
def env_readfail : Env :=
  { env_ok with
    read := fun p => if p = ["asm", "foo.o"] then .error "bad elf" else .ok ⟨"srcobj", false⟩ }

/-- Environment in which the first status checkpoint observes a
cancellation token. -/
def env_cancel0 : Env := { env_ok with cancelAt := fun k => k == 0 }

/-- Environment in which the second status checkpoint observes a
cancellation token. -/
def env_cancel1 : Env := { env_ok with cancelAt := fun k => k == 1 }

/-- Scheduler state with one in-flight Build job for `foo.o` and the
dirty flag set. -/
def s_inflight : SchedState where
  jobs := [⟨0, JobTy.Build, true, false, "foo.o"⟩]
  modified := true
  config := cfg0
  has_watcher := true

/-- Scheduler state with no jobs and the dirty flag set. -/
def s_clean : SchedState := { s_inflight with jobs := [] }

/-- C2 (counterexample): when the captured standard output fails to
decode, `run_make` returns an ordinary per-side `BuildStatus` (success
false, log = the error message), and the pipeline run containing it
completes with an `ok` result — the decode failure is NOT reported as a
pipeline error, refuting the claim as stated. -/
theorem run_make_decode_failure_counterexample :
    run_make (fun _ _ => CmdResult.launched (some 0) none (some "aerr")) [] ["asm", "foo.o"] =
      ⟨false, "Failed to process stdout"⟩ ∧
    (run_build env_stdout_bad "foo.o" cfgF0).result =
      .ok ⟨⟨false, "Failed to process stdout"⟩, ⟨true, "sout\nserr"⟩, none,
           some ⟨"srcobj", false⟩⟩ :=
  ⟨rfl, rfl⟩

/-- C2 (amended): the returned `BuildStatus` has success true iff the
exit code is exactly zero and its log is the concatenation of the
captured standard output and standard error, provided both streams
decode; a launch failure or a failure to decode either stream is
reported as an ordinary per-side failed `BuildStatus` whose log is the
error message, not as a pipeline error. -/
theorem run_make_characterisation (exec : Path → Path → CmdResult) (cwd arg : Path) :
    (∀ code out err, exec cwd arg = .launched code (some out) (some err) →
       run_make exec cwd arg = ⟨code.getD (-1) == 0, out ++ "\n" ++ err⟩ ∧
       ((run_make exec cwd arg).success = true ↔ code = some 0)) ∧
    (∀ code err, exec cwd arg = .launched code none err →
       run_make exec cwd arg = ⟨false, "Failed to process stdout"⟩) ∧
    (∀ code out, exec cwd arg = .launched code (some out) none →
       run_make exec cwd arg = ⟨false, "Failed to process stderr"⟩) ∧
    (exec cwd arg = .failed → run_make exec cwd arg = ⟨false, "Failed to execute build"⟩) := by
  refine ⟨?_, ?_, ?_, ?_⟩
  · intro code out err h
    refine ⟨by simp [run_make, h], ?_⟩
    cases code with
    | none => simp [run_make, h]
    | some c => simp [run_make, h]
  · intro code err h
    simp [run_make, h]
  · intro code out h
    simp [run_make, h]
  · intro h
    simp [run_make, h]

/-- C2 (witness): the amended characterisation applied to a concrete
successful invocation. -/
theorem run_make_characterisation_witness :
    run_make env_ok.exec [] ["asm", "foo.o"] = ⟨true, "aout\naerr"⟩ := by
  have h := (run_make_characterisation env_ok.exec [] ["asm", "foo.o"]).1
    (some 0) "aout" "aerr" rfl
  simpa using h.1

/-- C10: when the subprocess terminates without an exit code (killed by
a signal), `run_make` substitutes -1, so the result is a failed
`BuildStatus` carrying the captured log rather than an error. -/
theorem run_make_no_exit_code (exec : Path → Path → CmdResult) (cwd arg : Path)
    (out err : String) (h : exec cwd arg = .launched none (some out) (some err)) :
    run_make exec cwd arg = ⟨false, out ++ "\n" ++ err⟩ := by
  simp [run_make, h]

/-- C10 (witness): the signal-killed case evaluated concretely. -/
theorem run_make_no_exit_code_witness :
    run_make env_signal.exec [] ["asm", "foo.o"] = ⟨false, "aout\naerr"⟩ := by
  simpa using run_make_no_exit_code env_signal.exec [] ["asm", "foo.o"] "aout" "aerr" rfl

/-- C9: a pipeline run reads the shared configuration exactly once at
its start (instant 0), so two runs whose snapshots agree behave
identically regardless of later edits to the shared configuration. -/
theorem run_build_snapshot_noninterference (env : Env) (obj_path : String)
    (f g : Nat → AppConfig) (h : f 0 = g 0) :
    run_build env obj_path f = run_build env obj_path g := by
  unfold run_build
  rw [h]

/-- C9 (witness): a run against the constant configuration equals a run
against a configuration edited at every later instant. -/
theorem run_build_snapshot_noninterference_witness :
    run_build env_ok "foo.o" cfgF0 =
      run_build env_ok "foo.o" (fun n => if n = 0 then cfg0 else cfg_edited) :=
  run_build_snapshot_noninterference env_ok "foo.o" cfgF0 _ rfl

/-- C7: the watcher callback changes the dirty flag only from false to
true and only on a delivered event of Modify kind with at least one
affected path whose extension is in the allow-list; any event of a
different kind, or with no allow-listed extension, leaves the flag
unchanged. -/
theorem watcher_dirty_transitions (m : Bool) (res : Except Unit FsEvent) :
    (watcher_callback m res ≠ m →
       m = false ∧ watcher_callback m res = true ∧
       ∃ e, res = .ok e ∧ is_modify e.kind = true ∧
         ∃ p ∈ e.paths, extension p ∈ watch_extensions) ∧
    (∀ e, res = .ok e →
       is_modify e.kind = false ∨ (∀ p ∈ e.paths, extension p ∉ watch_extensions) →
       watcher_callback m res = m) := by
  have hval : ∀ e : FsEvent, watcher_callback m (.ok e) =
      if is_modify e.kind && e.paths.any (fun p => watch_extensions.contains (extension p))
      then true else m := by
    intro e
    show (if is_modify e.kind then
        (if e.paths.any (fun p => watch_extensions.contains (extension p)) then true else m)
      else m) = _
    cases hm : is_modify e.kind with
    | false => simp
    | true =>
      cases hp : e.paths.any (fun p => watch_extensions.contains (extension p)) with
      | false => simp
      | true => simp
  constructor
  · intro hne
    cases res with
    | error u => exact absurd rfl hne
    | ok e =>
      rw [hval e] at hne
      cases hc : (is_modify e.kind &&
          e.paths.any (fun p => watch_extensions.contains (extension p))) with
      | false => rw [hc] at hne; simp at hne
      | true =>
        rw [hc] at hne
        simp only [if_true] at hne
        have hm2 : m = false := by
          cases m with
          | false => rfl
          | true => simp at hne
        have hc2 : is_modify e.kind = true ∧ ∃ p ∈ e.paths, extension p ∈ watch_extensions := by
          simpa using hc
        obtain ⟨h1, p, hp, hpc⟩ := hc2
        refine ⟨hm2, ?_, e, rfl, h1, p, hp, hpc⟩
        rw [hval e, hc]
        simp
  · intro e hres hcond
    subst hres
    rw [hval e]
    have hc : (is_modify e.kind &&
        e.paths.any (fun p => watch_extensions.contains (extension p))) = false := by
      cases hcond with
      | inl h => rw [h, Bool.false_and]
      | inr h =>
        have hany : e.paths.any (fun p => watch_extensions.contains (extension p)) = false := by
          rw [List.any_eq_false]
          intro p hp
          simpa using h p hp
        rw [hany, Bool.and_false]
    rw [hc]
    simp

/-- C7 (witness): a modification of an allow-listed `.c` file sets the
flag; a modification of a `.rs` file leaves it clear. -/
theorem watcher_dirty_transitions_witness :
    watcher_callback false (Except.ok ⟨EventKind.Modify, ["/proj/src/foo.c"]⟩) = true ∧
    watcher_callback false (Except.ok ⟨EventKind.Modify, ["/proj/src/foo.rs"]⟩) = false := by
  constructor
  · exact ((watcher_dirty_transitions false
      (Except.ok ⟨EventKind.Modify, ["/proj/src/foo.c"]⟩)).1 (by decide)).2.1
  · exact (watcher_dirty_transitions false
      (Except.ok ⟨EventKind.Modify, ["/proj/src/foo.rs"]⟩)).2 _ rfl (Or.inr (by decide))

theorem load_stage_false (env : Env) (p : Path) (side : Bool) (msg : String)
    (step : Nat) (tr : List Ev) (ws : List StatusWrite) :
    load_stage env false p side msg step tr ws = (.ok none, tr, ws) := rfl

theorem load_stage_cancel (env : Env) (p : Path) (side : Bool) (msg : String)
    (step : Nat) (tr : List Ev) (ws : List StatusWrite) (h : env.cancelAt step = true) :
    load_stage env true p side msg step tr ws =
      (.error .cancelled, tr, ws ++ [⟨msg, step, 5⟩]) := by
  simp [load_stage, update_status, h]

theorem load_stage_read_err (env : Env) (p : Path) (side : Bool) (msg : String)
    (step : Nat) (tr : List Ev) (ws : List StatusWrite) (e : String)
    (h : env.cancelAt step = false) (he : env.read p = .error e) :
    load_stage env true p side msg step tr ws =
      (.error (.fatal e), tr ++ [Ev.load side], ws ++ [⟨msg, step, 5⟩]) := by
  simp [load_stage, update_status, h, he]

theorem load_stage_read_ok (env : Env) (p : Path) (side : Bool) (msg : String)
    (step : Nat) (tr : List Ev) (ws : List StatusWrite) (o : ObjInfo)
    (h : env.cancelAt step = false) (ho : env.read p = .ok o) :
    load_stage env true p side msg step tr ws =
      (.ok (some o), tr ++ [Ev.load side], ws ++ [⟨msg, step, 5⟩]) := by
  simp [load_stage, update_status, h, ho]

theorem load_stage_cases (env : Env) (su : Bool) (p : Path) (side : Bool) (msg : String)
    (step : Nat) (tr : List Ev) (ws : List StatusWrite) :
    (su = false ∧ load_stage env su p side msg step tr ws = (.ok none, tr, ws)) ∨
    (load_stage env su p side msg step tr ws =
       (.error .cancelled, tr, ws ++ [⟨msg, step, 5⟩])) ∨
    (∃ e, load_stage env su p side msg step tr ws =
       (.error (.fatal e), tr ++ [Ev.load side], ws ++ [⟨msg, step, 5⟩])) ∨
    (∃ o, load_stage env su p side msg step tr ws =
       (.ok (some o), tr ++ [Ev.load side], ws ++ [⟨msg, step, 5⟩])) := by
  cases su with
  | false => exact Or.inl ⟨rfl, load_stage_false env p side msg step tr ws⟩
  | true =>
    cases hc : env.cancelAt step with
    | true => exact Or.inr (Or.inl (load_stage_cancel env p side msg step tr ws hc))
    | false =>
      cases hr : env.read p with
      | error e =>
        exact Or.inr (Or.inr (Or.inl ⟨e, load_stage_read_err env p side msg step tr ws e hc hr⟩))
      | ok o =>
        exact Or.inr (Or.inr (Or.inr ⟨o, load_stage_read_ok env p side msg step tr ws o hc hr⟩))

theorem finish_stage_skip (env : Env) (fs ss : BuildStatus) (fo so : Option ObjInfo)
    (tr : List Ev) (ws : List StatusWrite) (h : fo = none ∨ so = none) :
    finish_stage env fs ss fo so tr ws =
      (if env.cancelAt 5 then ⟨.error .cancelled, tr, ws ++ [⟨"Complete", 5, 5⟩]⟩
       else ⟨.ok ⟨fs, ss, fo, so⟩, tr, ws ++ [⟨"Complete", 5, 5⟩]⟩) := by
  rcases fo with _ | o1 <;> rcases so with _ | o2
  · cases h5 : env.cancelAt 5 <;> simp [finish_stage, update_status, h5]
  · cases h5 : env.cancelAt 5 <;> simp [finish_stage, update_status, h5]
  · cases h5 : env.cancelAt 5 <;> simp [finish_stage, update_status, h5]
  · rcases h with h | h <;> simp at h

theorem finish_stage_both (env : Env) (fs ss : BuildStatus) (o1 o2 : ObjInfo)
    (tr : List Ev) (ws : List StatusWrite) (h4 : env.cancelAt 4 = false)
    (hdf : env.diff_fails = false) (h5 : env.cancelAt 5 = false) :
    finish_stage env fs ss (some o1) (some o2) tr ws =
      ⟨.ok ⟨fs, ss, some { o1 with annotated := true }, some { o2 with annotated := true }⟩,
       tr ++ [Ev.diff], ws ++ [⟨"Performing diff", 4, 5⟩, ⟨"Complete", 5, 5⟩]⟩ := by
  simp [finish_stage, update_status, diff_objs, h4, hdf, h5]

theorem finish_stage_both_cancel4 (env : Env) (fs ss : BuildStatus) (o1 o2 : ObjInfo)
    (tr : List Ev) (ws : List StatusWrite) (h4 : env.cancelAt 4 = true) :
    finish_stage env fs ss (some o1) (some o2) tr ws =
      ⟨.error .cancelled, tr, ws ++ [⟨"Performing diff", 4, 5⟩]⟩ := by
  simp [finish_stage, update_status, h4]

theorem finish_stage_both_difffail (env : Env) (fs ss : BuildStatus) (o1 o2 : ObjInfo)
    (tr : List Ev) (ws : List StatusWrite) (h4 : env.cancelAt 4 = false)
    (hdf : env.diff_fails = true) :
    finish_stage env fs ss (some o1) (some o2) tr ws =
      ⟨.error (.fatal "Diff failed"), tr ++ [Ev.diff], ws ++ [⟨"Performing diff", 4, 5⟩]⟩ := by
  simp [finish_stage, update_status, diff_objs, h4, hdf]

theorem finish_stage_both_cancel5 (env : Env) (fs ss : BuildStatus) (o1 o2 : ObjInfo)
    (tr : List Ev) (ws : List StatusWrite) (h4 : env.cancelAt 4 = false)
    (hdf : env.diff_fails = false) (h5 : env.cancelAt 5 = true) :
    finish_stage env fs ss (some o1) (some o2) tr ws =
      ⟨.error .cancelled, tr ++ [Ev.diff],
       ws ++ [⟨"Performing diff", 4, 5⟩, ⟨"Complete", 5, 5⟩]⟩ := by
  simp [finish_stage, update_status, diff_objs, h4, hdf, h5]

theorem getLast_append_singleton {α : Type} (l : List α) (a : α) :
    (l ++ [a]).getLast? = some a :=
  List.getLast?_concat l

theorem getLast_append_pair {α : Type} (l : List α) (a b : α) :
    (l ++ [a, b]).getLast? = some b := by
  have h : l ++ [a, b] = (l ++ [a]) ++ [b] := by simp
  rw [h]
  exact List.getLast?_concat _

theorem loads_stage_props (env : Env) (fs ss : BuildStatus) (ap sp : Path) (obj : String)
    (tr : List Ev) (ws : List StatusWrite) (hdiff : Ev.diff ∉ tr) :
    ∀ r, (loads_stage env fs ss ap sp obj tr ws).result = .ok r →
      ((Ev.diff ∈ (loads_stage env fs ss ap sp obj tr ws).trace ↔
         r.first_obj.isSome = true ∧ r.second_obj.isSome = true) ∧
       (loads_stage env fs ss ap sp obj tr ws).writes.getLast? = some ⟨"Complete", 5, 5⟩) := by
  intro r
  rcases load_stage_cases env fs.success ap true ("Loading asm " ++ obj) 2 tr ws with
    ⟨hsu, h1⟩ | h1 | ⟨e, h1⟩ | ⟨o1, h1⟩
  · rcases load_stage_cases env ss.success sp false ("Loading src " ++ obj) 3 tr ws with
      ⟨hsu2, h2⟩ | h2 | ⟨e, h2⟩ | ⟨o2, h2⟩
    · have hval : loads_stage env fs ss ap sp obj tr ws =
          finish_stage env fs ss none none tr ws := by
        simp only [loads_stage, h1, h2]
      rw [hval, finish_stage_skip _ _ _ _ _ _ _ (Or.inl rfl)]
      cases h5 : env.cancelAt 5 with
      | true => simp
      | false =>
        intro h
        simp at h
        subst h
        refine ⟨by simp [hdiff], by simp [getLast_append_singleton]⟩
    · have hval : loads_stage env fs ss ap sp obj tr ws =
          ⟨.error .cancelled, tr, ws ++ [⟨"Loading src " ++ obj, 3, 5⟩]⟩ := by
        simp only [loads_stage, h1, h2]
      rw [hval]
      simp
    · have hval : loads_stage env fs ss ap sp obj tr ws =
          ⟨.error (.fatal e), tr ++ [Ev.load false], ws ++ [⟨"Loading src " ++ obj, 3, 5⟩]⟩ := by
        simp only [loads_stage, h1, h2]
      rw [hval]
      simp
    · have hval : loads_stage env fs ss ap sp obj tr ws =
          finish_stage env fs ss none (some o2) (tr ++ [Ev.load false])
            (ws ++ [⟨"Loading src " ++ obj, 3, 5⟩]) := by
        simp only [loads_stage, h1, h2]
      rw [hval, finish_stage_skip _ _ _ _ _ _ _ (Or.inl rfl)]
      cases h5 : env.cancelAt 5 with
      | true => simp
      | false =>
        intro h
        simp at h
        subst h
        refine ⟨by simp [hdiff], by simp [getLast_append_singleton]⟩
  · have hval : loads_stage env fs ss ap sp obj tr ws =
        ⟨.error .cancelled, tr, ws ++ [⟨"Loading asm " ++ obj, 2, 5⟩]⟩ := by
      simp only [loads_stage, h1]
    rw [hval]
    simp
  · have hval : loads_stage env fs ss ap sp obj tr ws =
        ⟨.error (.fatal e), tr ++ [Ev.load true], ws ++ [⟨"Loading asm " ++ obj, 2, 5⟩]⟩ := by
      simp only [loads_stage, h1]
    rw [hval]
    simp
  · rcases load_stage_cases env ss.success sp false ("Loading src " ++ obj) 3
      (tr ++ [Ev.load true]) (ws ++ [⟨"Loading asm " ++ obj, 2, 5⟩]) with
      ⟨hsu2, h2⟩ | h2 | ⟨e, h2⟩ | ⟨o2, h2⟩
    · have hval : loads_stage env fs ss ap sp obj tr ws =
          finish_stage env fs ss (some o1) none (tr ++ [Ev.load true])
            (ws ++ [⟨"Loading asm " ++ obj, 2, 5⟩]) := by
        simp only [loads_stage, h1, h2]
      rw [hval, finish_stage_skip _ _ _ _ _ _ _ (Or.inr rfl)]
      cases h5 : env.cancelAt 5 with
      | true => simp
      | false =>
        intro h
        simp at h
        subst h
        refine ⟨by simp [hdiff], by simp [getLast_append_singleton]⟩
    · have hval : loads_stage env fs ss ap sp obj tr ws =
          ⟨.error .cancelled, tr ++ [Ev.load true],
           ws ++ [⟨"Loading asm " ++ obj, 2, 5⟩] ++ [⟨"Loading src " ++ obj, 3, 5⟩]⟩ := by
        simp only [loads_stage, h1, h2]
      rw [hval]
      simp
    · have hval : loads_stage env fs ss ap sp obj tr ws =
          ⟨.error (.fatal e), (tr ++ [Ev.load true]) ++ [Ev.load false],
           ws ++ [⟨"Loading asm " ++ obj, 2, 5⟩] ++ [⟨"Loading src " ++ obj, 3, 5⟩]⟩ := by
        simp only [loads_stage, h1, h2]
      rw [hval]
      simp
    · have hval : loads_stage env fs ss ap sp obj tr ws =
          finish_stage env fs ss (some o1) (some o2)
            ((tr ++ [Ev.load true]) ++ [Ev.load false])
            (ws ++ [⟨"Loading asm " ++ obj, 2, 5⟩] ++ [⟨"Loading src " ++ obj, 3, 5⟩]) := by
        simp only [loads_stage, h1, h2]
      rw [hval]
      cases h4 : env.cancelAt 4 with
      | true =>
        rw [finish_stage_both_cancel4 _ _ _ _ _ _ _ h4]
        simp
      | false =>
        cases hdf : env.diff_fails with
        | true =>
          rw [finish_stage_both_difffail _ _ _ _ _ _ _ h4 hdf]
          simp
        | false =>
          cases h5 : env.cancelAt 5 with
          | true =>
            rw [finish_stage_both_cancel5 _ _ _ _ _ _ _ h4 hdf h5]
            simp
          | false =>
            rw [finish_stage_both _ _ _ _ _ _ _ h4 hdf h5]
            intro h
            simp at h
            subst h
            refine ⟨by simp, by simp [getLast_append_pair]⟩

theorem run_build_red (env : Env) (obj : String) (cfg : AppConfig) (pd ad sd ra rs : Path)
    (hl : env.lock_poisoned = false) (hpd : cfg.project_dir = some pd)
    (ha : cfg.build_asm_dir = some ad) (hs : cfg.build_src_dir = some sd)
    (hra : strip_prefix (ad ++ [obj]) pd = some ra)
    (hrs : strip_prefix (sd ++ [obj]) pd = some rs)
    (h0 : env.cancelAt 0 = false) (h1 : env.cancelAt 1 = false) :
    run_build env obj (fun _ => cfg) =
      loads_stage env (run_make env.exec pd ra) (run_make env.exec pd rs)
        (ad ++ [obj]) (sd ++ [obj]) obj [Ev.make true, Ev.make false]
        [⟨"Building asm " ++ obj, 0, 5⟩, ⟨"Building src " ++ obj, 1, 5⟩] := by
  simp [run_build, update_status, hl, hpd, ha, hs, hra, hrs, h0, h1]

theorem run_build_cancel0 (env : Env) (obj : String) (cfg : AppConfig) (pd ad sd ra rs : Path)
    (hl : env.lock_poisoned = false) (hpd : cfg.project_dir = some pd)
    (ha : cfg.build_asm_dir = some ad) (hs : cfg.build_src_dir = some sd)
    (hra : strip_prefix (ad ++ [obj]) pd = some ra)
    (hrs : strip_prefix (sd ++ [obj]) pd = some rs)
    (h0 : env.cancelAt 0 = true) :
    run_build env obj (fun _ => cfg) =
      ⟨.error .cancelled, [], [⟨"Building asm " ++ obj, 0, 5⟩]⟩ := by
  simp [run_build, update_status, hl, hpd, ha, hs, hra, hrs, h0]

theorem run_build_cancel1 (env : Env) (obj : String) (cfg : AppConfig) (pd ad sd ra rs : Path)
    (hl : env.lock_poisoned = false) (hpd : cfg.project_dir = some pd)
    (ha : cfg.build_asm_dir = some ad) (hs : cfg.build_src_dir = some sd)
    (hra : strip_prefix (ad ++ [obj]) pd = some ra)
    (hrs : strip_prefix (sd ++ [obj]) pd = some rs)
    (h0 : env.cancelAt 0 = false) (h1 : env.cancelAt 1 = true) :
    run_build env obj (fun _ => cfg) =
      ⟨.error .cancelled, [Ev.make true],
       [⟨"Building asm " ++ obj, 0, 5⟩, ⟨"Building src " ++ obj, 1, 5⟩]⟩ := by
  simp [run_build, update_status, hl, hpd, ha, hs, hra, hrs, h0, h1]

theorem run_build_ok_props (env : Env) (obj : String) (cfgF : Nat → AppConfig) :
    ∀ r, (run_build env obj cfgF).result = .ok r →
      ((Ev.diff ∈ (run_build env obj cfgF).trace ↔
         r.first_obj.isSome = true ∧ r.second_obj.isSome = true) ∧
       (run_build env obj cfgF).writes.getLast? = some ⟨"Complete", 5, 5⟩) := by
  intro r
  cases hl : env.lock_poisoned with
  | true =>
    have hv : run_build env obj cfgF = ⟨.error (.fatal "Failed to lock app config"), [], []⟩ := by
      simp [run_build, hl]
    rw [hv]
    simp
  | false =>
    cases hpd : (cfgF 0).project_dir with
    | none =>
      have hv : run_build env obj cfgF = ⟨.error (.fatal "Missing project dir"), [], []⟩ := by
        simp [run_build, hl, hpd]
      rw [hv]
      simp
    | some pd =>
      cases ha : (cfgF 0).build_asm_dir with
      | none =>
        have hv : run_build env obj cfgF = ⟨.error (.fatal "Missing build asm dir"), [], []⟩ := by
          simp [run_build, hl, hpd, ha]
        rw [hv]
        simp
      | some ad =>
        cases hs : (cfgF 0).build_src_dir with
        | none =>
          have hv : run_build env obj cfgF =
              ⟨.error (.fatal "Missing build src dir"), [], []⟩ := by
            simp [run_build, hl, hpd, ha, hs]
          rw [hv]
          simp
        | some sd =>
          cases hra : strip_prefix (ad ++ [obj]) pd with
          | none =>
            have hv : run_build env obj cfgF =
                ⟨.error (.fatal "Failed to create relative asm obj path"), [], []⟩ := by
              simp [run_build, hl, hpd, ha, hs, hra]
            rw [hv]
            simp
          | some ra =>
            cases hrs : strip_prefix (sd ++ [obj]) pd with
            | none =>
              have hv : run_build env obj cfgF =
                  ⟨.error (.fatal "Failed to create relative src obj path"), [], []⟩ := by
                simp [run_build, hl, hpd, ha, hs, hra, hrs]
              rw [hv]
              simp
            | some rs =>
              cases h0 : env.cancelAt 0 with
              | true =>
                have hv : run_build env obj cfgF =
                    ⟨.error .cancelled, [], [⟨"Building asm " ++ obj, 0, 5⟩]⟩ := by
                  simp [run_build, update_status, hl, hpd, ha, hs, hra, hrs, h0]
                rw [hv]
                simp
              | false =>
                cases h1 : env.cancelAt 1 with
                | true =>
                  have hv : run_build env obj cfgF =
                      ⟨.error .cancelled, [Ev.make true],
                       [⟨"Building asm " ++ obj, 0, 5⟩, ⟨"Building src " ++ obj, 1, 5⟩]⟩ := by
                    simp [run_build, update_status, hl, hpd, ha, hs, hra, hrs, h0, h1]
                  rw [hv]
                  simp
                | false =>
                  have hv : run_build env obj cfgF =
                      loads_stage env (run_make env.exec pd ra) (run_make env.exec pd rs)
                        (ad ++ [obj]) (sd ++ [obj]) obj [Ev.make true, Ev.make false]
                        [⟨"Building asm " ++ obj, 0, 5⟩, ⟨"Building src " ++ obj, 1, 5⟩] := by
                    simp [run_build, update_status, hl, hpd, ha, hs, hra, hrs, h0, h1]
                  rw [hv]
                  exact loads_stage_props env _ _ _ _ obj _ _ (by simp) r

theorem watcher_block_jobs (wo : Bool) (s : SchedState) :
    (watcher_block wo s).1.jobs = s.jobs := by
  unfold watcher_block
  cases hch : s.config.project_dir_change with
  | false => simp
  | true =>
    cases hpd : s.config.project_dir with
    | none => simp [hpd]
    | some d => cases wo <;> simp [hpd]

theorem watcher_block_build_obj (wo : Bool) (s : SchedState) :
    (watcher_block wo s).1.config.build_obj = s.config.build_obj := by
  unfold watcher_block
  cases hch : s.config.project_dir_change with
  | false => simp
  | true =>
    cases hpd : s.config.project_dir with
    | none => simp [hpd]
    | some d => cases wo <;> simp [hpd]

theorem watcher_block_modified (wo : Bool) (s : SchedState) :
    (watcher_block wo s).1.modified = modified_mid s := by
  unfold watcher_block modified_mid
  cases hch : s.config.project_dir_change with
  | false => simp
  | true =>
    cases hpd : s.config.project_dir with
    | none => simp [hpd]
    | some d => cases wo <;> simp [hpd]

theorem scheduler_tick_true (wo : Bool) (nid : Nat) (s : SchedState) :
    scheduler_tick true wo nid s =
      build_block nid (watcher_block wo s).1 (watcher_block wo s).2 := rfl

theorem inflight_any_iff (l : List JobEntry) :
    (l.any fun j => j.job_type == JobTy.Build && j.has_handle) = true ↔
      ∃ j ∈ l, j.job_type = JobTy.Build ∧ j.has_handle = true := by
  simp [List.any_eq_true]

/-- C1 (counterexample): with a Build job in flight and the dirty flag
set, the tick enqueues nothing yet still clears the flag (refuting that
a non-enqueueing tick leaves a set flag set); and on a tick that does
enqueue, the clear action comes after the enqueue action (refuting
clear-first-then-enqueue). -/
theorem scheduler_clear_counterexample :
    s_inflight.modified = true ∧
    (scheduler_tick true true 1 s_inflight).1.jobs = s_inflight.jobs ∧
    (scheduler_tick true true 1 s_inflight).1.modified = false ∧
    (scheduler_tick true true 1 s_clean).2 = [Act.enqueue "foo.o", Act.set_modified false] :=
  ⟨rfl, rfl, rfl, rfl⟩

/-- C1 (amended): on every tick where a target object path is
configured and the dirty flag is set at the check, the flag is cleared
after the enqueue decision: when no Build job is in flight a job is
enqueued first and the clear action follows it; a tick that does not
enqueue because a Build job is in flight still clears the flag. -/
theorem scheduler_clear_after_enqueue (wo : Bool) (nid : Nat) (s : SchedState) (p : String)
    (hobj : s.config.build_obj = some p) (hmod : modified_mid s = true) :
    (scheduler_tick true wo nid s).1.modified = false ∧
    ((∃ j ∈ s.jobs, j.job_type = JobTy.Build ∧ j.has_handle = true) →
       (scheduler_tick true wo nid s).1.jobs = s.jobs ∧
       ∃ a0, (scheduler_tick true wo nid s).2 = a0 ++ [Act.set_modified false]) ∧
    ((∀ j ∈ s.jobs, ¬(j.job_type = JobTy.Build ∧ j.has_handle = true)) →
       (scheduler_tick true wo nid s).1.jobs = s.jobs ++ [⟨nid, JobTy.Build, true, false, p⟩] ∧
       ∃ a0, (scheduler_tick true wo nid s).2 = a0 ++ [Act.enqueue p, Act.set_modified false]) := by
  rw [scheduler_tick_true]
  have hjobs : (watcher_block wo s).1.jobs = s.jobs := watcher_block_jobs wo s
  have hbo : (watcher_block wo s).1.config.build_obj = some p := by
    rw [watcher_block_build_obj]; exact hobj
  have hmod1 : (watcher_block wo s).1.modified = true := by
    rw [watcher_block_modified]; exact hmod
  unfold build_block
  rw [hbo, hmod1]
  cases hin : ((watcher_block wo s).1.jobs.any
      fun j => j.job_type == JobTy.Build && j.has_handle) with
  | true =>
    refine ⟨by simp, ?_, ?_⟩
    · intro _
      refine ⟨by simpa using hjobs, (watcher_block wo s).2 ++ [], by simp⟩
    · intro hall
      rw [hjobs] at hin
      obtain ⟨j, hj, hprop⟩ := (inflight_any_iff s.jobs).mp hin
      exact absurd hprop (hall j hj)
  | false =>
    refine ⟨by simp, ?_, ?_⟩
    · intro hex
      rw [hjobs] at hin
      obtain ⟨j, hj, hprop⟩ := hex
      have := (inflight_any_iff s.jobs).not.mp (by simp [hin])
      exact absurd ⟨j, hj, hprop⟩ this
    · intro _
      refine ⟨by simp [hjobs], (watcher_block wo s).2, by simp⟩

/-- C1 (witness): the amended clearing behaviour on the concrete
in-flight state. -/
theorem scheduler_clear_after_enqueue_witness :
    (scheduler_tick true true 1 s_inflight).1.modified = false :=
  (scheduler_clear_after_enqueue true 1 s_inflight "foo.o" rfl rfl).1

/-- C3: a new Build job appears in the job list only if the dirty flag
was set at the check, a target object path was configured and equals the
new job's path, and no in-flight Build job existed — in particular none
for that same path, so a tick never enqueues a second job for a path
with a Build job in flight. -/
theorem scheduler_enqueue_only_if (wk wo : Bool) (nid : Nat) (s : SchedState) (e : JobEntry)
    (hmem : e ∈ (scheduler_tick wk wo nid s).1.jobs) (hnew : e ∉ s.jobs) :
    modified_mid s = true ∧ s.config.build_obj = some e.obj ∧
    (∀ j ∈ s.jobs, ¬(j.job_type = JobTy.Build ∧ j.has_handle = true)) ∧
    (∀ j ∈ s.jobs, ¬(j.job_type = JobTy.Build ∧ j.has_handle = true ∧ j.obj = e.obj)) := by
  cases wk with
  | false =>
    simp [scheduler_tick] at hmem
    exact absurd hmem hnew
  | true =>
    rw [scheduler_tick_true] at hmem
    have hjobs : (watcher_block wo s).1.jobs = s.jobs := watcher_block_jobs wo s
    unfold build_block at hmem
    cases hbo : (watcher_block wo s).1.config.build_obj with
    | none =>
      rw [hbo] at hmem
      simp [hjobs] at hmem
      exact absurd hmem hnew
    | some p =>
      rw [hbo] at hmem
      cases hm : (watcher_block wo s).1.modified with
      | false =>
        rw [hm] at hmem
        simp [hjobs] at hmem
        exact absurd hmem hnew
      | true =>
        rw [hm] at hmem
        cases hin : ((watcher_block wo s).1.jobs.any
            fun j => j.job_type == JobTy.Build && j.has_handle) with
        | true =>
          rw [hin] at hmem
          simp [hjobs] at hmem
          exact absurd hmem hnew
        | false =>
          rw [hin] at hmem
          simp [hjobs] at hmem
          have he : e = ⟨nid, JobTy.Build, true, false, p⟩ := by
            cases hmem with
            | inl h => exact absurd h hnew
            | inr h => exact h
          rw [hjobs] at hin
          have hnone : ∀ j ∈ s.jobs, ¬(j.job_type = JobTy.Build ∧ j.has_handle = true) := by
            intro j hj hprop
            exact absurd ((inflight_any_iff s.jobs).mpr ⟨j, hj, hprop⟩) (by simp [hin])
          refine ⟨?_, ?_, hnone, ?_⟩
          · rw [← watcher_block_modified wo s]; exact hm
          · rw [← watcher_block_build_obj wo s, hbo, he]
          · intro j hj hprop
            exact hnone j hj ⟨hprop.1, hprop.2.1⟩

/-- C3 (witness): on the clean state the enqueue preconditions hold. -/
theorem scheduler_enqueue_only_if_witness :
    modified_mid s_clean = true ∧ s_clean.config.build_obj = some "foo.o" := by
  have h := scheduler_enqueue_only_if true true 1 s_clean
    ⟨1, JobTy.Build, true, false, "foo.o"⟩ (by decide) (by decide)
  exact ⟨h.1, h.2.1⟩

/-- C6 (counterexample): a run cancelled at the first checkpoint
terminates with its Status resting at step 0 ("Building asm foo.o"),
not at step 5 with "Complete", and carries no error — the worker has
finished, refuting the claim that a completed job never rests at an
intermediate step without an error. -/
theorem run_build_terminal_counterexample :
    (run_build env_cancel0 "foo.o" cfgF0).result = .error .cancelled ∧
    (run_build env_cancel0 "foo.o" cfgF0).writes.getLast? =
      some ⟨"Building asm foo.o", 0, 5⟩ ∧
    status_error (run_build env_cancel0 "foo.o" cfgF0) = none :=
  ⟨rfl, rfl, rfl⟩

/-- C6 (amended): every pipeline run that is not cancelled ends
terminally — a run returning a result has its final status write at
step 5 of 5 with message "Complete" regardless of which stages were
skipped, and a run failing with a pipeline-fatal error carries that
error in its Status. -/
theorem run_build_terminal_status (env : Env) (obj : String) (cfgF : Nat → AppConfig) :
    (∀ r, (run_build env obj cfgF).result = .ok r →
       (run_build env obj cfgF).writes.getLast? = some ⟨"Complete", 5, 5⟩) ∧
    (∀ m, (run_build env obj cfgF).result = .error (.fatal m) →
       status_error (run_build env obj cfgF) = some m) := by
  constructor
  · intro r h
    exact (run_build_ok_props env obj cfgF r h).2
  · intro m h
    simp [status_error, h]

/-- C6 (witness): a fully successful run terminates at Complete,
step 5 of 5. -/
theorem run_build_terminal_status_witness :
    (run_build env_ok "foo.o" cfgF0).writes.getLast? = some ⟨"Complete", 5, 5⟩ :=
  (run_build_terminal_status env_ok "foo.o" cfgF0).1
    ⟨⟨true, "aout\naerr"⟩, ⟨true, "sout\nserr"⟩, some ⟨"asmobj", true⟩,
     some ⟨"srcobj", true⟩⟩ rfl

/-- C8: whenever an `update_status` checkpoint observes a cancellation
token, `run_build` returns Cancelled immediately with no further stage
work — shown for every checkpoint (steps 0 through 5, with the
checkpoints at steps 3 and 5 covered in each of their reachable
pre-states, and cancellation at step 4 skipping the diff invocation) —
and a cancelled run attaches no error to the Status and produces no
BuildResult. -/
theorem run_build_cancelled_silent (env : Env) (obj : String) (cfg : AppConfig)
    (pd ad sd ra rs : Path)
    (hl : env.lock_poisoned = false) (hpd : cfg.project_dir = some pd)
    (ha : cfg.build_asm_dir = some ad) (hs : cfg.build_src_dir = some sd)
    (hra : strip_prefix (ad ++ [obj]) pd = some ra)
    (hrs : strip_prefix (sd ++ [obj]) pd = some rs) :
    (∀ cfgF : Nat → AppConfig, (run_build env obj cfgF).result = .error .cancelled →
       status_error (run_build env obj cfgF) = none) ∧
    (env.cancelAt 0 = true →
       run_build env obj (fun _ => cfg) =
         ⟨.error .cancelled, [], [⟨"Building asm " ++ obj, 0, 5⟩]⟩) ∧
    (env.cancelAt 0 = false → env.cancelAt 1 = true →
       run_build env obj (fun _ => cfg) =
         ⟨.error .cancelled, [Ev.make true],
          [⟨"Building asm " ++ obj, 0, 5⟩, ⟨"Building src " ++ obj, 1, 5⟩]⟩) ∧
    (env.cancelAt 0 = false → env.cancelAt 1 = false →
     (run_make env.exec pd ra).success = true → env.cancelAt 2 = true →
       (run_build env obj (fun _ => cfg)).result = .error .cancelled ∧
       (run_build env obj (fun _ => cfg)).trace = [Ev.make true, Ev.make false]) ∧
    (env.cancelAt 0 = false → env.cancelAt 1 = false →
     (run_make env.exec pd ra).success = false → (run_make env.exec pd rs).success = true →
     env.cancelAt 3 = true →
       (run_build env obj (fun _ => cfg)).result = .error .cancelled ∧
       (run_build env obj (fun _ => cfg)).trace = [Ev.make true, Ev.make false] ∧
       status_error (run_build env obj (fun _ => cfg)) = none) ∧
    (env.cancelAt 0 = false → env.cancelAt 1 = false →
     (run_make env.exec pd ra).success = true → env.cancelAt 2 = false →
     ∀ o1, env.read (ad ++ [obj]) = .ok o1 →
     (run_make env.exec pd rs).success = true → env.cancelAt 3 = true →
       (run_build env obj (fun _ => cfg)).result = .error .cancelled ∧
       (run_build env obj (fun _ => cfg)).trace =
         [Ev.make true, Ev.make false, Ev.load true] ∧
       status_error (run_build env obj (fun _ => cfg)) = none) ∧
    (env.cancelAt 0 = false → env.cancelAt 1 = false →
     (run_make env.exec pd ra).success = true → env.cancelAt 2 = false →
     (run_make env.exec pd rs).success = true → env.cancelAt 3 = false →
     ∀ o1 o2, env.read (ad ++ [obj]) = .ok o1 → env.read (sd ++ [obj]) = .ok o2 →
     env.cancelAt 4 = true →
       (run_build env obj (fun _ => cfg)).result = .error .cancelled ∧
       (run_build env obj (fun _ => cfg)).trace =
         [Ev.make true, Ev.make false, Ev.load true, Ev.load false] ∧
       Ev.diff ∉ (run_build env obj (fun _ => cfg)).trace ∧
       status_error (run_build env obj (fun _ => cfg)) = none) ∧
    (env.cancelAt 0 = false → env.cancelAt 1 = false →
     (run_make env.exec pd ra).success = false → (run_make env.exec pd rs).success = false →
     env.cancelAt 5 = true →
       (run_build env obj (fun _ => cfg)).result = .error .cancelled ∧
       (run_build env obj (fun _ => cfg)).trace = [Ev.make true, Ev.make false] ∧
       status_error (run_build env obj (fun _ => cfg)) = none) ∧
    (env.cancelAt 0 = false → env.cancelAt 1 = false →
     (run_make env.exec pd ra).success = true → env.cancelAt 2 = false →
     (run_make env.exec pd rs).success = true → env.cancelAt 3 = false →
     ∀ o1 o2, env.read (ad ++ [obj]) = .ok o1 → env.read (sd ++ [obj]) = .ok o2 →
     env.cancelAt 4 = false → env.diff_fails = false → env.cancelAt 5 = true →
       (run_build env obj (fun _ => cfg)).result = .error .cancelled ∧
       (run_build env obj (fun _ => cfg)).trace =
         [Ev.make true, Ev.make false, Ev.load true, Ev.load false, Ev.diff] ∧
       status_error (run_build env obj (fun _ => cfg)) = none) := by
  refine ⟨?_, ?_, ?_, ?_, ?_, ?_, ?_, ?_, ?_⟩
  · intro cfgF h
    simp [status_error, h]
  · intro h0
    exact run_build_cancel0 env obj cfg pd ad sd ra rs hl hpd ha hs hra hrs h0
  · intro h0 h1
    exact run_build_cancel1 env obj cfg pd ad sd ra rs hl hpd ha hs hra hrs h0 h1
  · intro h0 h1 hfs h2
    rw [run_build_red env obj cfg pd ad sd ra rs hl hpd ha hs hra hrs h0 h1]
    have hload := load_stage_cancel env (ad ++ [obj]) true ("Loading asm " ++ obj) 2
      [Ev.make true, Ev.make false]
      [⟨"Building asm " ++ obj, 0, 5⟩, ⟨"Building src " ++ obj, 1, 5⟩] h2
    have hv : loads_stage env (run_make env.exec pd ra) (run_make env.exec pd rs)
        (ad ++ [obj]) (sd ++ [obj]) obj [Ev.make true, Ev.make false]
        [⟨"Building asm " ++ obj, 0, 5⟩, ⟨"Building src " ++ obj, 1, 5⟩] =
        ⟨.error .cancelled, [Ev.make true, Ev.make false],
         [⟨"Building asm " ++ obj, 0, 5⟩, ⟨"Building src " ++ obj, 1, 5⟩,
          ⟨"Loading asm " ++ obj, 2, 5⟩]⟩ := by
      simp [loads_stage, hfs, hload]
    rw [hv]
    exact ⟨rfl, rfl⟩
  · intro h0 h1 hfs hss h3
    rw [run_build_red env obj cfg pd ad sd ra rs hl hpd ha hs hra hrs h0 h1]
    have h1st : load_stage env (run_make env.exec pd ra).success (ad ++ [obj]) true
        ("Loading asm " ++ obj) 2 [Ev.make true, Ev.make false]
        [⟨"Building asm " ++ obj, 0, 5⟩, ⟨"Building src " ++ obj, 1, 5⟩] =
        (.ok none, [Ev.make true, Ev.make false],
         [⟨"Building asm " ++ obj, 0, 5⟩, ⟨"Building src " ++ obj, 1, 5⟩]) := by
      rw [hfs]
      exact load_stage_false env (ad ++ [obj]) true ("Loading asm " ++ obj) 2 _ _
    have h2nd : load_stage env (run_make env.exec pd rs).success (sd ++ [obj]) false
        ("Loading src " ++ obj) 3 [Ev.make true, Ev.make false]
        [⟨"Building asm " ++ obj, 0, 5⟩, ⟨"Building src " ++ obj, 1, 5⟩] =
        (.error .cancelled, [Ev.make true, Ev.make false],
         [⟨"Building asm " ++ obj, 0, 5⟩, ⟨"Building src " ++ obj, 1, 5⟩]
           ++ [⟨"Loading src " ++ obj, 3, 5⟩]) := by
      rw [hss]
      exact load_stage_cancel env (sd ++ [obj]) false ("Loading src " ++ obj) 3 _ _ h3
    have hv : loads_stage env (run_make env.exec pd ra) (run_make env.exec pd rs)
        (ad ++ [obj]) (sd ++ [obj]) obj [Ev.make true, Ev.make false]
        [⟨"Building asm " ++ obj, 0, 5⟩, ⟨"Building src " ++ obj, 1, 5⟩] =
        ⟨.error .cancelled, [Ev.make true, Ev.make false],
         [⟨"Building asm " ++ obj, 0, 5⟩, ⟨"Building src " ++ obj, 1, 5⟩,
          ⟨"Loading src " ++ obj, 3, 5⟩]⟩ := by
      simp [loads_stage, h1st, h2nd]
    rw [hv]
    exact ⟨rfl, rfl, rfl⟩
  · intro h0 h1 hfs h2 o1 hro1 hss h3
    rw [run_build_red env obj cfg pd ad sd ra rs hl hpd ha hs hra hrs h0 h1]
    have h1st : load_stage env (run_make env.exec pd ra).success (ad ++ [obj]) true
        ("Loading asm " ++ obj) 2 [Ev.make true, Ev.make false]
        [⟨"Building asm " ++ obj, 0, 5⟩, ⟨"Building src " ++ obj, 1, 5⟩] =
        (.ok (some o1), [Ev.make true, Ev.make false] ++ [Ev.load true],
         [⟨"Building asm " ++ obj, 0, 5⟩, ⟨"Building src " ++ obj, 1, 5⟩]
           ++ [⟨"Loading asm " ++ obj, 2, 5⟩]) := by
      rw [hfs]
      exact load_stage_read_ok env (ad ++ [obj]) true ("Loading asm " ++ obj) 2 _ _ o1 h2 hro1
    have h2nd : load_stage env (run_make env.exec pd rs).success (sd ++ [obj]) false
        ("Loading src " ++ obj) 3 [Ev.make true, Ev.make false, Ev.load true]
        [⟨"Building asm " ++ obj, 0, 5⟩, ⟨"Building src " ++ obj, 1, 5⟩,
         ⟨"Loading asm " ++ obj, 2, 5⟩] =
        (.error .cancelled, [Ev.make true, Ev.make false, Ev.load true],
         [⟨"Building asm " ++ obj, 0, 5⟩, ⟨"Building src " ++ obj, 1, 5⟩,
          ⟨"Loading asm " ++ obj, 2, 5⟩] ++ [⟨"Loading src " ++ obj, 3, 5⟩]) := by
      rw [hss]
      exact load_stage_cancel env (sd ++ [obj]) false ("Loading src " ++ obj) 3 _ _ h3
    have hv : loads_stage env (run_make env.exec pd ra) (run_make env.exec pd rs)
        (ad ++ [obj]) (sd ++ [obj]) obj [Ev.make true, Ev.make false]
        [⟨"Building asm " ++ obj, 0, 5⟩, ⟨"Building src " ++ obj, 1, 5⟩] =
        ⟨.error .cancelled, [Ev.make true, Ev.make false, Ev.load true],
         [⟨"Building asm " ++ obj, 0, 5⟩, ⟨"Building src " ++ obj, 1, 5⟩,
          ⟨"Loading asm " ++ obj, 2, 5⟩, ⟨"Loading src " ++ obj, 3, 5⟩]⟩ := by
      simp [loads_stage, h1st, h2nd]
    rw [hv]
    exact ⟨rfl, rfl, rfl⟩
  · intro h0 h1 hfs h2 hss h3 o1 o2 hro1 hro2 h4
    rw [run_build_red env obj cfg pd ad sd ra rs hl hpd ha hs hra hrs h0 h1]
    have h1st : load_stage env (run_make env.exec pd ra).success (ad ++ [obj]) true
        ("Loading asm " ++ obj) 2 [Ev.make true, Ev.make false]
        [⟨"Building asm " ++ obj, 0, 5⟩, ⟨"Building src " ++ obj, 1, 5⟩] =
        (.ok (some o1), [Ev.make true, Ev.make false] ++ [Ev.load true],
         [⟨"Building asm " ++ obj, 0, 5⟩, ⟨"Building src " ++ obj, 1, 5⟩]
           ++ [⟨"Loading asm " ++ obj, 2, 5⟩]) := by
      rw [hfs]
      exact load_stage_read_ok env (ad ++ [obj]) true ("Loading asm " ++ obj) 2 _ _ o1 h2 hro1
    have h2nd : load_stage env (run_make env.exec pd rs).success (sd ++ [obj]) false
        ("Loading src " ++ obj) 3 [Ev.make true, Ev.make false, Ev.load true]
        [⟨"Building asm " ++ obj, 0, 5⟩, ⟨"Building src " ++ obj, 1, 5⟩,
         ⟨"Loading asm " ++ obj, 2, 5⟩] =
        (.ok (some o2), [Ev.make true, Ev.make false, Ev.load true] ++ [Ev.load false],
         [⟨"Building asm " ++ obj, 0, 5⟩, ⟨"Building src " ++ obj, 1, 5⟩,
          ⟨"Loading asm " ++ obj, 2, 5⟩] ++ [⟨"Loading src " ++ obj, 3, 5⟩]) := by
      rw [hss]
      exact load_stage_read_ok env (sd ++ [obj]) false ("Loading src " ++ obj) 3 _ _ o2 h3 hro2
    have hv : loads_stage env (run_make env.exec pd ra) (run_make env.exec pd rs)
        (ad ++ [obj]) (sd ++ [obj]) obj [Ev.make true, Ev.make false]
        [⟨"Building asm " ++ obj, 0, 5⟩, ⟨"Building src " ++ obj, 1, 5⟩] =
        finish_stage env (run_make env.exec pd ra) (run_make env.exec pd rs)
          (some o1) (some o2) [Ev.make true, Ev.make false, Ev.load true, Ev.load false]
          [⟨"Building asm " ++ obj, 0, 5⟩, ⟨"Building src " ++ obj, 1, 5⟩,
           ⟨"Loading asm " ++ obj, 2, 5⟩, ⟨"Loading src " ++ obj, 3, 5⟩] := by
      simp [loads_stage, h1st, h2nd]
    rw [hv, finish_stage_both_cancel4 _ _ _ _ _ _ _ h4]
    exact ⟨rfl, rfl, by simp, rfl⟩
  · intro h0 h1 hfs hss h5
    rw [run_build_red env obj cfg pd ad sd ra rs hl hpd ha hs hra hrs h0 h1]
    have h1st : load_stage env (run_make env.exec pd ra).success (ad ++ [obj]) true
        ("Loading asm " ++ obj) 2 [Ev.make true, Ev.make false]
        [⟨"Building asm " ++ obj, 0, 5⟩, ⟨"Building src " ++ obj, 1, 5⟩] =
        (.ok none, [Ev.make true, Ev.make false],
         [⟨"Building asm " ++ obj, 0, 5⟩, ⟨"Building src " ++ obj, 1, 5⟩]) := by
      rw [hfs]
      exact load_stage_false env (ad ++ [obj]) true ("Loading asm " ++ obj) 2 _ _
    have h2nd : load_stage env (run_make env.exec pd rs).success (sd ++ [obj]) false
        ("Loading src " ++ obj) 3 [Ev.make true, Ev.make false]
        [⟨"Building asm " ++ obj, 0, 5⟩, ⟨"Building src " ++ obj, 1, 5⟩] =
        (.ok none, [Ev.make true, Ev.make false],
         [⟨"Building asm " ++ obj, 0, 5⟩, ⟨"Building src " ++ obj, 1, 5⟩]) := by
      rw [hss]
      exact load_stage_false env (sd ++ [obj]) false ("Loading src " ++ obj) 3 _ _
    have hv : loads_stage env (run_make env.exec pd ra) (run_make env.exec pd rs)
        (ad ++ [obj]) (sd ++ [obj]) obj [Ev.make true, Ev.make false]
        [⟨"Building asm " ++ obj, 0, 5⟩, ⟨"Building src " ++ obj, 1, 5⟩] =
        finish_stage env (run_make env.exec pd ra) (run_make env.exec pd rs) none none
          [Ev.make true, Ev.make false]
          [⟨"Building asm " ++ obj, 0, 5⟩, ⟨"Building src " ++ obj, 1, 5⟩] := by
      simp only [loads_stage, h1st, h2nd]
    rw [hv, finish_stage_skip _ _ _ _ _ _ _ (Or.inl rfl)]
    refine ⟨by simp [h5], by simp [h5], by simp [status_error, h5]⟩
  · intro h0 h1 hfs h2 hss h3 o1 o2 hro1 hro2 h4 hdf h5
    rw [run_build_red env obj cfg pd ad sd ra rs hl hpd ha hs hra hrs h0 h1]
    have h1st : load_stage env (run_make env.exec pd ra).success (ad ++ [obj]) true
        ("Loading asm " ++ obj) 2 [Ev.make true, Ev.make false]
        [⟨"Building asm " ++ obj, 0, 5⟩, ⟨"Building src " ++ obj, 1, 5⟩] =
        (.ok (some o1), [Ev.make true, Ev.make false] ++ [Ev.load true],
         [⟨"Building asm " ++ obj, 0, 5⟩, ⟨"Building src " ++ obj, 1, 5⟩]
           ++ [⟨"Loading asm " ++ obj, 2, 5⟩]) := by
      rw [hfs]
      exact load_stage_read_ok env (ad ++ [obj]) true ("Loading asm " ++ obj) 2 _ _ o1 h2 hro1
    have h2nd : load_stage env (run_make env.exec pd rs).success (sd ++ [obj]) false
        ("Loading src " ++ obj) 3 [Ev.make true, Ev.make false, Ev.load true]
        [⟨"Building asm " ++ obj, 0, 5⟩, ⟨"Building src " ++ obj, 1, 5⟩,
         ⟨"Loading asm " ++ obj, 2, 5⟩] =
        (.ok (some o2), [Ev.make true, Ev.make false, Ev.load true] ++ [Ev.load false],
         [⟨"Building asm " ++ obj, 0, 5⟩, ⟨"Building src " ++ obj, 1, 5⟩,
          ⟨"Loading asm " ++ obj, 2, 5⟩] ++ [⟨"Loading src " ++ obj, 3, 5⟩]) := by
      rw [hss]
      exact load_stage_read_ok env (sd ++ [obj]) false ("Loading src " ++ obj) 3 _ _ o2 h3 hro2
    have hv : loads_stage env (run_make env.exec pd ra) (run_make env.exec pd rs)
        (ad ++ [obj]) (sd ++ [obj]) obj [Ev.make true, Ev.make false]
        [⟨"Building asm " ++ obj, 0, 5⟩, ⟨"Building src " ++ obj, 1, 5⟩] =
        finish_stage env (run_make env.exec pd ra) (run_make env.exec pd rs)
          (some o1) (some o2) [Ev.make true, Ev.make false, Ev.load true, Ev.load false]
          [⟨"Building asm " ++ obj, 0, 5⟩, ⟨"Building src " ++ obj, 1, 5⟩,
           ⟨"Loading asm " ++ obj, 2, 5⟩, ⟨"Loading src " ++ obj, 3, 5⟩] := by
      simp [loads_stage, h1st, h2nd]
    rw [hv, finish_stage_both_cancel5 _ _ _ _ _ _ _ h4 hdf h5]
    exact ⟨rfl, by simp, rfl⟩

/-- C8 (witness): cancellation at the first checkpoint on a concrete
environment: no result, empty trace, silent status. -/
theorem run_build_cancelled_silent_witness :
    run_build env_cancel0 "foo.o" (fun _ => cfg0) =
      ⟨.error .cancelled, [], [⟨"Building asm foo.o", 0, 5⟩]⟩ := by
  have h := (run_build_cancelled_silent env_cancel0 "foo.o" cfg0 [] ["asm"] ["src"]
    ["asm", "foo.o"] ["src", "foo.o"] rfl rfl rfl rfl rfl rfl).2.1 rfl
  simpa using h

/-- C4: on each side whose build reported success, a parse failure is
pipeline-fatal — the run aborts with that error and performs no further
stage work; on each side whose build failed, the parser is never
invoked and that side's obj field is simply `none`, with no error
raised for that side. Proven for the asm side and for the src side,
the latter in both of its reachable pre-states (asm build failed, and
asm build succeeded with its artifact loaded). -/
theorem run_build_parse_contract (env : Env) (obj : String) (cfg : AppConfig)
    (pd ad sd ra rs : Path)
    (hl : env.lock_poisoned = false) (hpd : cfg.project_dir = some pd)
    (ha : cfg.build_asm_dir = some ad) (hs : cfg.build_src_dir = some sd)
    (hra : strip_prefix (ad ++ [obj]) pd = some ra)
    (hrs : strip_prefix (sd ++ [obj]) pd = some rs)
    (h0 : env.cancelAt 0 = false) (h1 : env.cancelAt 1 = false) :
    ((run_make env.exec pd ra).success = true → env.cancelAt 2 = false →
     ∀ e, env.read (ad ++ [obj]) = .error e →
       (run_build env obj (fun _ => cfg)).result = .error (.fatal e) ∧
       (run_build env obj (fun _ => cfg)).trace =
         [Ev.make true, Ev.make false, Ev.load true]) ∧
    ((run_make env.exec pd ra).success = false →
       Ev.load true ∉ (run_build env obj (fun _ => cfg)).trace ∧
       ∀ r, (run_build env obj (fun _ => cfg)).result = .ok r → r.first_obj = none) ∧
    ((run_make env.exec pd ra).success = false → (run_make env.exec pd rs).success = true →
     env.cancelAt 3 = false → ∀ e, env.read (sd ++ [obj]) = .error e →
       (run_build env obj (fun _ => cfg)).result = .error (.fatal e) ∧
       (run_build env obj (fun _ => cfg)).trace =
         [Ev.make true, Ev.make false, Ev.load false]) ∧
    ((run_make env.exec pd ra).success = true → env.cancelAt 2 = false →
     ∀ o1, env.read (ad ++ [obj]) = .ok o1 →
     (run_make env.exec pd rs).success = true → env.cancelAt 3 = false →
     ∀ e, env.read (sd ++ [obj]) = .error e →
       (run_build env obj (fun _ => cfg)).result = .error (.fatal e) ∧
       (run_build env obj (fun _ => cfg)).trace =
         [Ev.make true, Ev.make false, Ev.load true, Ev.load false]) ∧
    ((run_make env.exec pd rs).success = false →
       Ev.load false ∉ (run_build env obj (fun _ => cfg)).trace ∧
       ∀ r, (run_build env obj (fun _ => cfg)).result = .ok r → r.second_obj = none) := by
  rw [run_build_red env obj cfg pd ad sd ra rs hl hpd ha hs hra hrs h0 h1]
  refine ⟨?_, ?_, ?_, ?_, ?_⟩
  · intro hfs h2 e hre
    have h1st : load_stage env (run_make env.exec pd ra).success (ad ++ [obj]) true
        ("Loading asm " ++ obj) 2 [Ev.make true, Ev.make false]
        [⟨"Building asm " ++ obj, 0, 5⟩, ⟨"Building src " ++ obj, 1, 5⟩] =
        (.error (.fatal e), [Ev.make true, Ev.make false] ++ [Ev.load true],
         [⟨"Building asm " ++ obj, 0, 5⟩, ⟨"Building src " ++ obj, 1, 5⟩]
           ++ [⟨"Loading asm " ++ obj, 2, 5⟩]) := by
      rw [hfs]
      exact load_stage_read_err env (ad ++ [obj]) true ("Loading asm " ++ obj) 2 _ _ e h2 hre
    have hv : loads_stage env (run_make env.exec pd ra) (run_make env.exec pd rs)
        (ad ++ [obj]) (sd ++ [obj]) obj [Ev.make true, Ev.make false]
        [⟨"Building asm " ++ obj, 0, 5⟩, ⟨"Building src " ++ obj, 1, 5⟩] =
        ⟨.error (.fatal e), [Ev.make true, Ev.make false, Ev.load true],
         [⟨"Building asm " ++ obj, 0, 5⟩, ⟨"Building src " ++ obj, 1, 5⟩,
          ⟨"Loading asm " ++ obj, 2, 5⟩]⟩ := by
      simp [loads_stage, h1st]
    rw [hv]
    exact ⟨rfl, rfl⟩
  · intro hfs
    have h1st : load_stage env (run_make env.exec pd ra).success (ad ++ [obj]) true
        ("Loading asm " ++ obj) 2 [Ev.make true, Ev.make false]
        [⟨"Building asm " ++ obj, 0, 5⟩, ⟨"Building src " ++ obj, 1, 5⟩] =
        (.ok none, [Ev.make true, Ev.make false],
         [⟨"Building asm " ++ obj, 0, 5⟩, ⟨"Building src " ++ obj, 1, 5⟩]) := by
      rw [hfs]
      exact load_stage_false env (ad ++ [obj]) true ("Loading asm " ++ obj) 2 _ _
    rcases load_stage_cases env (run_make env.exec pd rs).success (sd ++ [obj]) false
      ("Loading src " ++ obj) 3 [Ev.make true, Ev.make false]
      [⟨"Building asm " ++ obj, 0, 5⟩, ⟨"Building src " ++ obj, 1, 5⟩] with
      ⟨hsu2, h2⟩ | h2 | ⟨e, h2⟩ | ⟨o2, h2⟩
    · have hv : loads_stage env (run_make env.exec pd ra) (run_make env.exec pd rs)
          (ad ++ [obj]) (sd ++ [obj]) obj [Ev.make true, Ev.make false]
          [⟨"Building asm " ++ obj, 0, 5⟩, ⟨"Building src " ++ obj, 1, 5⟩] =
          finish_stage env (run_make env.exec pd ra) (run_make env.exec pd rs) none none
            [Ev.make true, Ev.make false]
            [⟨"Building asm " ++ obj, 0, 5⟩, ⟨"Building src " ++ obj, 1, 5⟩] := by
        simp only [loads_stage, h1st, h2]
      rw [hv, finish_stage_skip _ _ _ _ _ _ _ (Or.inl rfl)]
      cases h5 : env.cancelAt 5 with
      | true =>
        refine ⟨by simp, ?_⟩
        intro r h
        simp at h
      | false =>
        refine ⟨by simp, ?_⟩
        intro r h
        simp at h
        subst h
        rfl
    · have hv : loads_stage env (run_make env.exec pd ra) (run_make env.exec pd rs)
          (ad ++ [obj]) (sd ++ [obj]) obj [Ev.make true, Ev.make false]
          [⟨"Building asm " ++ obj, 0, 5⟩, ⟨"Building src " ++ obj, 1, 5⟩] =
          ⟨.error .cancelled, [Ev.make true, Ev.make false],
           [⟨"Building asm " ++ obj, 0, 5⟩, ⟨"Building src " ++ obj, 1, 5⟩,
            ⟨"Loading src " ++ obj, 3, 5⟩]⟩ := by
        simp [loads_stage, h1st, h2]
      rw [hv]
      refine ⟨by simp, ?_⟩
      intro r h
      simp at h
    · have hv : loads_stage env (run_make env.exec pd ra) (run_make env.exec pd rs)
          (ad ++ [obj]) (sd ++ [obj]) obj [Ev.make true, Ev.make false]
          [⟨"Building asm " ++ obj, 0, 5⟩, ⟨"Building src " ++ obj, 1, 5⟩] =
          ⟨.error (.fatal e), [Ev.make true, Ev.make false, Ev.load false],
           [⟨"Building asm " ++ obj, 0, 5⟩, ⟨"Building src " ++ obj, 1, 5⟩,
            ⟨"Loading src " ++ obj, 3, 5⟩]⟩ := by
        simp [loads_stage, h1st, h2]
      rw [hv]
      refine ⟨by simp, ?_⟩
      intro r h
      simp at h
    · have hv : loads_stage env (run_make env.exec pd ra) (run_make env.exec pd rs)
          (ad ++ [obj]) (sd ++ [obj]) obj [Ev.make true, Ev.make false]
          [⟨"Building asm " ++ obj, 0, 5⟩, ⟨"Building src " ++ obj, 1, 5⟩] =
          finish_stage env (run_make env.exec pd ra) (run_make env.exec pd rs) none (some o2)
            ([Ev.make true, Ev.make false] ++ [Ev.load false])
            ([⟨"Building asm " ++ obj, 0, 5⟩, ⟨"Building src " ++ obj, 1, 5⟩]
              ++ [⟨"Loading src " ++ obj, 3, 5⟩]) := by
        simp only [loads_stage, h1st, h2]
      rw [hv, finish_stage_skip _ _ _ _ _ _ _ (Or.inl rfl)]
      cases h5 : env.cancelAt 5 with
      | true =>
        refine ⟨by simp, ?_⟩
        intro r h
        simp at h
      | false =>
        refine ⟨by simp, ?_⟩
        intro r h
        simp at h
        subst h
        rfl
  · intro hfs hss h3 e hre
    have h1st : load_stage env (run_make env.exec pd ra).success (ad ++ [obj]) true
        ("Loading asm " ++ obj) 2 [Ev.make true, Ev.make false]
        [⟨"Building asm " ++ obj, 0, 5⟩, ⟨"Building src " ++ obj, 1, 5⟩] =
        (.ok none, [Ev.make true, Ev.make false],
         [⟨"Building asm " ++ obj, 0, 5⟩, ⟨"Building src " ++ obj, 1, 5⟩]) := by
      rw [hfs]
      exact load_stage_false env (ad ++ [obj]) true ("Loading asm " ++ obj) 2 _ _
    have h2nd : load_stage env (run_make env.exec pd rs).success (sd ++ [obj]) false
        ("Loading src " ++ obj) 3 [Ev.make true, Ev.make false]
        [⟨"Building asm " ++ obj, 0, 5⟩, ⟨"Building src " ++ obj, 1, 5⟩] =
        (.error (.fatal e), [Ev.make true, Ev.make false] ++ [Ev.load false],
         [⟨"Building asm " ++ obj, 0, 5⟩, ⟨"Building src " ++ obj, 1, 5⟩]
           ++ [⟨"Loading src " ++ obj, 3, 5⟩]) := by
      rw [hss]
      exact load_stage_read_err env (sd ++ [obj]) false ("Loading src " ++ obj) 3 _ _ e h3 hre
    have hv : loads_stage env (run_make env.exec pd ra) (run_make env.exec pd rs)
        (ad ++ [obj]) (sd ++ [obj]) obj [Ev.make true, Ev.make false]
        [⟨"Building asm " ++ obj, 0, 5⟩, ⟨"Building src " ++ obj, 1, 5⟩] =
        ⟨.error (.fatal e), [Ev.make true, Ev.make false, Ev.load false],
         [⟨"Building asm " ++ obj, 0, 5⟩, ⟨"Building src " ++ obj, 1, 5⟩,
          ⟨"Loading src " ++ obj, 3, 5⟩]⟩ := by
      simp [loads_stage, h1st, h2nd]
    rw [hv]
    exact ⟨rfl, rfl⟩
  · intro hfs h2 o1 hro1 hss h3 e hre
    have h1st : load_stage env (run_make env.exec pd ra).success (ad ++ [obj]) true
        ("Loading asm " ++ obj) 2 [Ev.make true, Ev.make false]
        [⟨"Building asm " ++ obj, 0, 5⟩, ⟨"Building src " ++ obj, 1, 5⟩] =
        (.ok (some o1), [Ev.make true, Ev.make false] ++ [Ev.load true],
         [⟨"Building asm " ++ obj, 0, 5⟩, ⟨"Building src " ++ obj, 1, 5⟩]
           ++ [⟨"Loading asm " ++ obj, 2, 5⟩]) := by
      rw [hfs]
      exact load_stage_read_ok env (ad ++ [obj]) true ("Loading asm " ++ obj) 2 _ _ o1 h2 hro1
    have h2nd : load_stage env (run_make env.exec pd rs).success (sd ++ [obj]) false
        ("Loading src " ++ obj) 3 [Ev.make true, Ev.make false, Ev.load true]
        [⟨"Building asm " ++ obj, 0, 5⟩, ⟨"Building src " ++ obj, 1, 5⟩,
         ⟨"Loading asm " ++ obj, 2, 5⟩] =
        (.error (.fatal e),
         [Ev.make true, Ev.make false, Ev.load true] ++ [Ev.load false],
         [⟨"Building asm " ++ obj, 0, 5⟩, ⟨"Building src " ++ obj, 1, 5⟩,
          ⟨"Loading asm " ++ obj, 2, 5⟩] ++ [⟨"Loading src " ++ obj, 3, 5⟩]) := by
      rw [hss]
      exact load_stage_read_err env (sd ++ [obj]) false ("Loading src " ++ obj) 3 _ _ e h3 hre
    have hv : loads_stage env (run_make env.exec pd ra) (run_make env.exec pd rs)
        (ad ++ [obj]) (sd ++ [obj]) obj [Ev.make true, Ev.make false]
        [⟨"Building asm " ++ obj, 0, 5⟩, ⟨"Building src " ++ obj, 1, 5⟩] =
        ⟨.error (.fatal e), [Ev.make true, Ev.make false, Ev.load true, Ev.load false],
         [⟨"Building asm " ++ obj, 0, 5⟩, ⟨"Building src " ++ obj, 1, 5⟩,
          ⟨"Loading asm " ++ obj, 2, 5⟩, ⟨"Loading src " ++ obj, 3, 5⟩]⟩ := by
      simp [loads_stage, h1st, h2nd]
    rw [hv]
    exact ⟨rfl, rfl⟩
  · intro hss
    have h2any : ∀ (tr : List Ev) (ws : List StatusWrite),
        load_stage env (run_make env.exec pd rs).success (sd ++ [obj]) false
          ("Loading src " ++ obj) 3 tr ws = (.ok none, tr, ws) := by
      intro tr ws
      rw [hss]
      exact load_stage_false env (sd ++ [obj]) false ("Loading src " ++ obj) 3 _ _
    rcases load_stage_cases env (run_make env.exec pd ra).success (ad ++ [obj]) true
      ("Loading asm " ++ obj) 2 [Ev.make true, Ev.make false]
      [⟨"Building asm " ++ obj, 0, 5⟩, ⟨"Building src " ++ obj, 1, 5⟩] with
      ⟨hsu, h1a⟩ | h1a | ⟨e, h1a⟩ | ⟨o1, h1a⟩
    · have hv : loads_stage env (run_make env.exec pd ra) (run_make env.exec pd rs)
          (ad ++ [obj]) (sd ++ [obj]) obj [Ev.make true, Ev.make false]
          [⟨"Building asm " ++ obj, 0, 5⟩, ⟨"Building src " ++ obj, 1, 5⟩] =
          finish_stage env (run_make env.exec pd ra) (run_make env.exec pd rs) none none
            [Ev.make true, Ev.make false]
            [⟨"Building asm " ++ obj, 0, 5⟩, ⟨"Building src " ++ obj, 1, 5⟩] := by
        simp only [loads_stage, h1a, h2any]
      rw [hv, finish_stage_skip _ _ _ _ _ _ _ (Or.inr rfl)]
      cases h5 : env.cancelAt 5 with
      | true =>
        refine ⟨by simp, ?_⟩
        intro r h
        simp at h
      | false =>
        refine ⟨by simp, ?_⟩
        intro r h
        simp at h
        subst h
        rfl
    · have hv : loads_stage env (run_make env.exec pd ra) (run_make env.exec pd rs)
          (ad ++ [obj]) (sd ++ [obj]) obj [Ev.make true, Ev.make false]
          [⟨"Building asm " ++ obj, 0, 5⟩, ⟨"Building src " ++ obj, 1, 5⟩] =
          ⟨.error .cancelled, [Ev.make true, Ev.make false],
           [⟨"Building asm " ++ obj, 0, 5⟩, ⟨"Building src " ++ obj, 1, 5⟩,
            ⟨"Loading asm " ++ obj, 2, 5⟩]⟩ := by
        simp [loads_stage, h1a]
      rw [hv]
      refine ⟨by simp, ?_⟩
      intro r h
      simp at h
    · have hv : loads_stage env (run_make env.exec pd ra) (run_make env.exec pd rs)
          (ad ++ [obj]) (sd ++ [obj]) obj [Ev.make true, Ev.make false]
          [⟨"Building asm " ++ obj, 0, 5⟩, ⟨"Building src " ++ obj, 1, 5⟩] =
          ⟨.error (.fatal e), [Ev.make true, Ev.make false, Ev.load true],
           [⟨"Building asm " ++ obj, 0, 5⟩, ⟨"Building src " ++ obj, 1, 5⟩,
            ⟨"Loading asm " ++ obj, 2, 5⟩]⟩ := by
        simp [loads_stage, h1a]
      rw [hv]
      refine ⟨by simp, ?_⟩
      intro r h
      simp at h
    · have hv : loads_stage env (run_make env.exec pd ra) (run_make env.exec pd rs)
          (ad ++ [obj]) (sd ++ [obj]) obj [Ev.make true, Ev.make false]
          [⟨"Building asm " ++ obj, 0, 5⟩, ⟨"Building src " ++ obj, 1, 5⟩] =
          finish_stage env (run_make env.exec pd ra) (run_make env.exec pd rs) (some o1) none
            ([Ev.make true, Ev.make false] ++ [Ev.load true])
            ([⟨"Building asm " ++ obj, 0, 5⟩, ⟨"Building src " ++ obj, 1, 5⟩]
              ++ [⟨"Loading asm " ++ obj, 2, 5⟩]) := by
        simp only [loads_stage, h1a, h2any]
      rw [hv, finish_stage_skip _ _ _ _ _ _ _ (Or.inr rfl)]
      cases h5 : env.cancelAt 5 with
      | true =>
        refine ⟨by simp, ?_⟩
        intro r h
        simp at h
      | false =>
        refine ⟨by simp, ?_⟩
        intro r h
        simp at h
        subst h
        rfl

/-- C4 (witness): the asm build succeeds but its artifact fails to
parse; the job's terminal outcome is that fatal error. -/
theorem run_build_parse_contract_witness :
    (run_build env_readfail "foo.o" (fun _ => cfg0)).result = .error (.fatal "bad elf") := by
  have h := (run_build_parse_contract env_readfail "foo.o" cfg0 [] ["asm"] ["src"]
    ["asm", "foo.o"] ["src", "foo.o"] rfl rfl rfl rfl rfl rfl rfl rfl).1 rfl rfl "bad elf" rfl
  exact h.1

/-- C5: for every run returning a result, the diff engine was invoked
iff both obj fields are populated; when the asm build fails and the src
build succeeds the result is {first failed, second succeeded, first_obj
none, second_obj some} and the diff engine is never invoked; when both
builds succeed (and both loads and the diff succeed) the diff engine is
invoked exactly once and both obj fields are populated and annotated. -/
theorem run_build_diff_scenarios (env : Env) (obj : String) (cfg : AppConfig)
    (pd ad sd ra rs : Path)
    (hl : env.lock_poisoned = false) (hpd : cfg.project_dir = some pd)
    (ha : cfg.build_asm_dir = some ad) (hs : cfg.build_src_dir = some sd)
    (hra : strip_prefix (ad ++ [obj]) pd = some ra)
    (hrs : strip_prefix (sd ++ [obj]) pd = some rs)
    (h0 : env.cancelAt 0 = false) (h1 : env.cancelAt 1 = false) :
    (∀ (env2 : Env) (obj2 : String) (cfgF2 : Nat → AppConfig) (r : BuildResult),
       (run_build env2 obj2 cfgF2).result = .ok r →
       (Ev.diff ∈ (run_build env2 obj2 cfgF2).trace ↔
         r.first_obj.isSome = true ∧ r.second_obj.isSome = true)) ∧
    ((run_make env.exec pd ra).success = false → (run_make env.exec pd rs).success = true →
     env.cancelAt 3 = false → env.cancelAt 5 = false →
     ∀ o, env.read (sd ++ [obj]) = .ok o →
       (run_build env obj (fun _ => cfg)).result =
         .ok ⟨run_make env.exec pd ra, run_make env.exec pd rs, none, some o⟩ ∧
       Ev.diff ∉ (run_build env obj (fun _ => cfg)).trace) ∧
    ((run_make env.exec pd ra).success = true → (run_make env.exec pd rs).success = true →
     env.cancelAt 2 = false → env.cancelAt 3 = false → env.cancelAt 4 = false →
     env.cancelAt 5 = false → env.diff_fails = false →
     ∀ o1 o2, env.read (ad ++ [obj]) = .ok o1 → env.read (sd ++ [obj]) = .ok o2 →
       (run_build env obj (fun _ => cfg)).result =
         .ok ⟨run_make env.exec pd ra, run_make env.exec pd rs,
              some { o1 with annotated := true }, some { o2 with annotated := true }⟩ ∧
       (run_build env obj (fun _ => cfg)).trace.count Ev.diff = 1) := by
  refine ⟨?_, ?_, ?_⟩
  · intro env2 obj2 cfgF2 r h
    exact (run_build_ok_props env2 obj2 cfgF2 r h).1
  · intro hfs hss h3 h5 o hro
    rw [run_build_red env obj cfg pd ad sd ra rs hl hpd ha hs hra hrs h0 h1]
    have h1st : load_stage env (run_make env.exec pd ra).success (ad ++ [obj]) true
        ("Loading asm " ++ obj) 2 [Ev.make true, Ev.make false]
        [⟨"Building asm " ++ obj, 0, 5⟩, ⟨"Building src " ++ obj, 1, 5⟩] =
        (.ok none, [Ev.make true, Ev.make false],
         [⟨"Building asm " ++ obj, 0, 5⟩, ⟨"Building src " ++ obj, 1, 5⟩]) := by
      rw [hfs]
      exact load_stage_false env (ad ++ [obj]) true ("Loading asm " ++ obj) 2 _ _
    have h2nd : load_stage env (run_make env.exec pd rs).success (sd ++ [obj]) false
        ("Loading src " ++ obj) 3 [Ev.make true, Ev.make false]
        [⟨"Building asm " ++ obj, 0, 5⟩, ⟨"Building src " ++ obj, 1, 5⟩] =
        (.ok (some o), [Ev.make true, Ev.make false] ++ [Ev.load false],
         [⟨"Building asm " ++ obj, 0, 5⟩, ⟨"Building src " ++ obj, 1, 5⟩]
           ++ [⟨"Loading src " ++ obj, 3, 5⟩]) := by
      rw [hss]
      exact load_stage_read_ok env (sd ++ [obj]) false ("Loading src " ++ obj) 3 _ _ o h3 hro
    have hv : loads_stage env (run_make env.exec pd ra) (run_make env.exec pd rs)
        (ad ++ [obj]) (sd ++ [obj]) obj [Ev.make true, Ev.make false]
        [⟨"Building asm " ++ obj, 0, 5⟩, ⟨"Building src " ++ obj, 1, 5⟩] =
        finish_stage env (run_make env.exec pd ra) (run_make env.exec pd rs) none (some o)
          ([Ev.make true, Ev.make false] ++ [Ev.load false])
          ([⟨"Building asm " ++ obj, 0, 5⟩, ⟨"Building src " ++ obj, 1, 5⟩]
            ++ [⟨"Loading src " ++ obj, 3, 5⟩]) := by
      simp only [loads_stage, h1st, h2nd]
    rw [hv, finish_stage_skip _ _ _ _ _ _ _ (Or.inl rfl)]
    refine ⟨by simp [h5], by simp [h5]⟩
  · intro hfs hss h2 h3 h4 h5 hdf o1 o2 hro1 hro2
    rw [run_build_red env obj cfg pd ad sd ra rs hl hpd ha hs hra hrs h0 h1]
    have h1st : load_stage env (run_make env.exec pd ra).success (ad ++ [obj]) true
        ("Loading asm " ++ obj) 2 [Ev.make true, Ev.make false]
        [⟨"Building asm " ++ obj, 0, 5⟩, ⟨"Building src " ++ obj, 1, 5⟩] =
        (.ok (some o1), [Ev.make true, Ev.make false] ++ [Ev.load true],
         [⟨"Building asm " ++ obj, 0, 5⟩, ⟨"Building src " ++ obj, 1, 5⟩]
           ++ [⟨"Loading asm " ++ obj, 2, 5⟩]) := by
      rw [hfs]
      exact load_stage_read_ok env (ad ++ [obj]) true ("Loading asm " ++ obj) 2 _ _ o1 h2 hro1
    have h2nd : load_stage env (run_make env.exec pd rs).success (sd ++ [obj]) false
        ("Loading src " ++ obj) 3 ([Ev.make true, Ev.make false] ++ [Ev.load true])
        ([⟨"Building asm " ++ obj, 0, 5⟩, ⟨"Building src " ++ obj, 1, 5⟩]
          ++ [⟨"Loading asm " ++ obj, 2, 5⟩]) =
        (.ok (some o2), ([Ev.make true, Ev.make false] ++ [Ev.load true]) ++ [Ev.load false],
         ([⟨"Building asm " ++ obj, 0, 5⟩, ⟨"Building src " ++ obj, 1, 5⟩]
           ++ [⟨"Loading asm " ++ obj, 2, 5⟩]) ++ [⟨"Loading src " ++ obj, 3, 5⟩]) := by
      rw [hss]
      exact load_stage_read_ok env (sd ++ [obj]) false ("Loading src " ++ obj) 3 _ _ o2 h3 hro2
    have hv : loads_stage env (run_make env.exec pd ra) (run_make env.exec pd rs)
        (ad ++ [obj]) (sd ++ [obj]) obj [Ev.make true, Ev.make false]
        [⟨"Building asm " ++ obj, 0, 5⟩, ⟨"Building src " ++ obj, 1, 5⟩] =
        finish_stage env (run_make env.exec pd ra) (run_make env.exec pd rs)
          (some o1) (some o2)
          (([Ev.make true, Ev.make false] ++ [Ev.load true]) ++ [Ev.load false])
          (([⟨"Building asm " ++ obj, 0, 5⟩, ⟨"Building src " ++ obj, 1, 5⟩]
            ++ [⟨"Loading asm " ++ obj, 2, 5⟩]) ++ [⟨"Loading src " ++ obj, 3, 5⟩]) := by
      simp only [loads_stage, h1st, h2nd]
    rw [hv, finish_stage_both _ _ _ _ _ _ _ h4 hdf h5]
    refine ⟨rfl, by simp⟩

/-- C5 (witness): the two scenarios evaluated concretely — asm fails /
src succeeds skips the diff; both succeed runs the diff once and
annotates both objects. -/
theorem run_build_diff_scenarios_witness :
    (run_build env_asmfail "foo.o" (fun _ => cfg0)).result =
      .ok ⟨⟨false, "aout\naerr"⟩, ⟨true, "sout\nserr"⟩, none, some ⟨"srcobj", false⟩⟩ ∧
    (run_build env_ok "foo.o" (fun _ => cfg0)).result =
      .ok ⟨⟨true, "aout\naerr"⟩, ⟨true, "sout\nserr"⟩, some ⟨"asmobj", true⟩,
           some ⟨"srcobj", true⟩⟩ ∧
    (run_build env_ok "foo.o" (fun _ => cfg0)).trace.count Ev.diff = 1 := by
  have hA := (run_build_diff_scenarios env_asmfail "foo.o" cfg0 [] ["asm"] ["src"]
    ["asm", "foo.o"] ["src", "foo.o"] rfl rfl rfl rfl rfl rfl rfl rfl).2.1
    rfl rfl rfl rfl ⟨"srcobj", false⟩ rfl
  have hB := (run_build_diff_scenarios env_ok "foo.o" cfg0 [] ["asm"] ["src"]
    ["asm", "foo.o"] ["src", "foo.o"] rfl rfl rfl rfl rfl rfl rfl rfl).2.2
    rfl rfl rfl rfl rfl rfl rfl ⟨"asmobj", false⟩ ⟨"srcobj", false⟩ rfl rfl
  exact ⟨hA.1, hB.1, hB.2⟩

end Objdiff
